import Mathlib

/-! # Mercury network abstraction over MPI (`src/na/na_mpi.c`), emulated one-sided path

Shallow embedding of the MPI plugin of the network abstraction layer, compiled with
`MPI_VERSION` forced to 2 (the `#if MPI_VERSION < 3` branches of the source).

* C objects reached through pointers (`mpi_mem_handle_t`, `mpi_req_t`, `mpi_addr_t`) live in typed
  heaps of the process state `World`; dereferencing a pointer that holds no object is undefined
  behaviour and makes the embedded function return `none`.
* User buffers live in a byte-addressed memory `World.mem`.
* The MPI library and the hash table are external: every call is recorded in `World.trace`, and
  what the library answers (return code, flag, status, request handle, incoming bytes) is read
  from `World.oracle` at the current `World.tick`, so a statement quantified over worlds is
  quantified over every behaviour of the library.
* Machine integers are `Nat`/`Int` with explicit reductions; the data model is LP64
  (pointers, `MPI_Aint`, `unsigned long`: 8 bytes; `int`, enums: 4 bytes; little endian).
-/

namespace NaMpi

/-! ## Machine integers and byte images -/

/-- Reinterpretation of an integer as a two's complement value of `w` bits: the result of a C
conversion to a signed type of that width. -/
def wrapSigned (w : Nat) (x : Int) : Int :=
  if x % (2 ^ w : Int) < (2 ^ (w - 1) : Int) then x % (2 ^ w : Int) else x % (2 ^ w : Int) - (2 ^ w : Int)

/-- The C conversion `(int) x`. -/
def toInt (x : Int) : Int := wrapSigned 32 x

/-- The C conversion `(MPI_Aint) x`. -/
def toAint (x : Int) : Int := wrapSigned 64 x

/-- The C conversion `(na_size_t) x` of an `int` (to an unsigned 64-bit type). -/
def toSize (x : Int) : Nat := (x % (2 ^ 64 : Int)).toNat

/-- Little-endian image of `x` on `k` bytes. -/
def toLE : Nat → Nat → List Nat
  | 0, _ => []
  | k + 1, x => (x % 256) :: toLE k (x / 256)

/-- Value of a little-endian byte string. -/
def fromLE : List Nat → Nat
  | [] => 0
  | b :: bs => b + 256 * fromLE bs

/-- Little-endian two's complement image of a signed integer on `k` bytes. -/
def toLESigned (k : Nat) (x : Int) : List Nat := toLE k (x % (2 ^ (8 * k) : Int)).toNat

/-- Signed value of a little-endian two's complement byte string of `k` bytes. -/
def fromLESigned (k : Nat) (bs : List Nat) : Int := wrapSigned (8 * k) (fromLE bs)

/-- Pointer arithmetic `p + off` on a byte pointer, in a 64-bit address space. -/
def ptr_add (p : Nat) (off : Int) : Nat := (((p : Int) + off) % (2 ^ 64 : Int)).toNat

/-! ## Private structs of the plugin -/

/-- The null pointer. -/
def NULL : Nat := 0

/-- Return codes of the network abstraction layer (`NA_SUCCESS`, `NA_FAIL` of `na.h`). -/
inductive na_return_t where
  | NA_SUCCESS
  | NA_FAIL
  deriving DecidableEq, Repr

export na_return_t (NA_SUCCESS NA_FAIL)

/-- The success code of the MPI library. -/
def MPI_SUCCESS : Int := 0

/-- Peer address, `struct mpi_addr`. -/
structure mpi_addr_t where
  comm : Nat
  rank : Int
  is_reference : Bool
  onesided_comm : Nat
  deriving DecidableEq, Repr

/-- Memory descriptor, `struct mpi_mem_handle`. -/
structure mpi_mem_handle_t where
  base : Nat
  size : Int
  attr : Nat
  deriving DecidableEq, Repr

/-- The fields of a descriptor are values of their C types (`void *`, `MPI_Aint`,
`unsigned long`). -/
def mpi_mem_handle_t.wf (h : mpi_mem_handle_t) : Prop :=
  h.base < 2 ^ 64 ∧ (-(2 ^ 63 : Int) ≤ h.size ∧ h.size < (2 ^ 63 : Int)) ∧ h.attr < 2 ^ 64

instance (h : mpi_mem_handle_t) : Decidable h.wf := by
  unfold mpi_mem_handle_t.wf; infer_instance

/-- The value of `sizeof(mpi_mem_handle_t)`. -/
def sizeof_mpi_mem_handle_t : Nat := 24

/-- Byte image of a descriptor, what `memcpy` reads from the object. -/
def mpi_mem_handle_t.image (h : mpi_mem_handle_t) : List Nat :=
  toLE 8 h.base ++ (toLESigned 8 h.size ++ toLE 8 h.attr)

/-- The descriptor whose byte image is `bs`, what `memcpy` into the object produces. -/
def mpi_mem_handle_t.ofImage (bs : List Nat) : mpi_mem_handle_t :=
  { base := fromLE (bs.take 8)
    size := fromLESigned 8 ((bs.drop 8).take 8)
    attr := fromLE ((bs.drop 16).take 8) }

/-- Values of `enum mpi_onesided_op`. -/
def MPI_ONESIDED_PUT : Int := 0

/-- Second enumerator of `enum mpi_onesided_op`. -/
def MPI_ONESIDED_GET : Int := 1

/-- Third enumerator of `enum mpi_onesided_op`. -/
def MPI_ONESIDED_END : Int := 2

/-- Control record of the side channel, `struct mpi_onesided_info`. The operation is kept as the
integer that is on the wire. -/
structure mpi_onesided_info_t where
  base : Nat
  disp : Int
  count : Int
  op : Int
  deriving DecidableEq, Repr

/-- The value of `sizeof(mpi_onesided_info_t)`. -/
def sizeof_mpi_onesided_info_t : Nat := 24

/-- Byte image of a control record. -/
def mpi_onesided_info_t.image (r : mpi_onesided_info_t) : List Nat :=
  toLE 8 r.base ++ (toLESigned 8 r.disp ++ (toLESigned 4 r.count ++ toLESigned 4 r.op))

/-- The control record whose byte image is `bs`. -/
def mpi_onesided_info_t.ofImage (bs : List Nat) : mpi_onesided_info_t :=
  { base := fromLE (bs.take 8)
    disp := fromLESigned 8 ((bs.drop 8).take 8)
    count := fromLESigned 4 ((bs.drop 16).take 4)
    op := fromLESigned 4 ((bs.drop 20).take 4) }

/-- Kind of a request, `enum mpi_req_type`. -/
inductive mpi_req_type_t where
  | MPI_SEND_OP
  | MPI_RECV_OP
  deriving DecidableEq, Repr

export mpi_req_type_t (MPI_SEND_OP MPI_RECV_OP)

/-- Request object, `struct mpi_req`. An `MPI_Request` is `none` for `MPI_REQUEST_NULL` and
`some k` for the handle `k` of the library. -/
structure mpi_req_t where
  type : mpi_req_type_t
  request : Option Nat
  ack : Nat
  ack_request : Option Nat
  deriving DecidableEq, Repr

/-- The `MPI_Status` fields the plugin reads; `count` is what `MPI_Get_count` reports for
`MPI_BYTE`. -/
structure MPI_Status where
  MPI_SOURCE : Int
  MPI_TAG : Int
  count : Int
  deriving DecidableEq, Repr

/-- Completion status handed back by `wait`, `struct na_status`. -/
structure na_status_t where
  completed : Bool
  count : Nat
  deriving DecidableEq, Repr

/-- A `na_status_t *` argument: null, the constant `NA_STATUS_IGNORE`, or a pointer to a status
that holds `s`. -/
inductive StatusArg where
  | null
  | ignore
  | ptr (s : na_status_t)
  deriving DecidableEq, Repr

/-- The maximum size of an unexpected message. -/
def NA_MPI_UNEXPECTED_SIZE : Nat := 4096

/-- Default tag used for one-sided over two-sided. -/
def NA_MPI_ONESIDED_TAG : Int := 0x80

/-- Tag of the acknowledgement of an emulated put. -/
def NA_MPI_ONESIDED_ACK_TAG : Int := 0x81

/-! ## Process state and the external libraries -/

/-- Source or tag selector of a receive or probe: the wildcard (`MPI_ANY_SOURCE`, `MPI_ANY_TAG`)
or a value. -/
inductive Sel where
  | any
  | is (v : Int)
  deriving DecidableEq, Repr

/-- Where a receive stores the incoming bytes: a local variable of the caller, the byte memory at
an address, or the `ack` field of the request object at a pointer. -/
inductive RecvTarget where
  | var
  | mem (a : Nat)
  | ack (p : Nat)
  deriving DecidableEq, Repr

/-- The two `MPI_Request` fields of a request object. -/
inductive ReqField where
  | primary
  | ack
  deriving DecidableEq, Repr

/-- One action on the outside of the plugin: a library call with its arguments (a send carries
the bytes of its buffer), an allocation, a release, or a logged error. -/
inductive Event where
  | NA_ERROR (msg : String)
  | malloc (p : Nat)
  | free (p : Nat)
  | hg_thread_mutex_lock
  | hg_thread_mutex_unlock
  | hg_thread_mutex_destroy
  | hg_thread_join
  | hg_hash_table_lookup (key : Nat)
  | hg_hash_table_insert (key : Nat) (value : Nat)
  | hg_hash_table_remove (key : Nat)
  | MPI_Send (payload : List Nat) (count : Int) (dest : Int) (tag : Int) (comm : Nat)
  | MPI_Isend (payload : List Nat) (count : Int) (dest : Int) (tag : Int) (comm : Nat)
  | MPI_Recv (target : RecvTarget) (count : Int) (source : Sel) (tag : Sel) (comm : Nat)
  | MPI_Irecv (target : RecvTarget) (count : Int) (source : Int) (tag : Int) (comm : Nat)
  | MPI_Iprobe (source : Sel) (tag : Sel) (comm : Nat)
  | MPI_Test (request : Option Nat)
  | MPI_Wait (request : Option Nat)
  | MPI_Comm_free (comm : Nat)
  | MPI_Comm_disconnect (comm : Nat)
  | MPI_Comm_connect (port_name : Nat)
  | MPI_Comm_remote_size (comm : Nat)
  | MPI_Comm_dup (comm : Nat)
  | hg_thread_mutex_init
  | hg_thread_create (arg : Nat)
  | MPI_Close_port
  | hg_hash_table_free
  | MPI_Finalized
  | MPI_Finalize
  deriving DecidableEq, Repr

/-- What an external call answers: its return code, the flag of a test or probe, the status, the
handle a non-blocking call creates, and the bytes of the message a receive completes with. -/
structure Reply where
  ret : Int
  flag : Int
  status : MPI_Status
  request : Nat
  data : List Nat
  deriving DecidableEq, Repr

/-- State of one process: byte memory, the heaps of the private structs, the private variables of
the plugin, the receives posted and not yet completed, and the outside (answers of the external
libraries, calls made so far). `junk_req`, `junk_addr` and `junk_byte` are the indeterminate
contents of fresh allocations and of uninitialised variables; `mpi_ext_initialized` and
`mpi_intra_comm` are the private variables of these names. -/
structure World where
  mem : Nat → Nat
  handles : Nat → Option mpi_mem_handle_t
  reqs : Nat → Option mpi_req_t
  addrs : Nat → Option mpi_addr_t
  brk : Nat
  mem_handle_map : List (Nat × Nat)
  mem_map_mutex : Bool
  is_server : Bool
  server_remote_addr : mpi_addr_t
  mpi_ext_initialized : Int
  mpi_intra_comm : Nat
  posted : List (Nat × (RecvTarget × Int))
  junk_req : mpi_req_t
  junk_addr : mpi_addr_t
  junk_byte : Nat
  oracle : Nat → Reply
  tick : Nat
  trace : List Event

/-- Append an event to the trace. -/
def World.log (w : World) (e : Event) : World := { w with trace := w.trace ++ [e] }

/-- The answer to the external call being made. -/
def World.reply (w : World) : Reply := w.oracle w.tick

/-- Record an external call that consumed an answer. -/
def World.step (w : World) (e : Event) : World :=
  { w with trace := w.trace ++ [e], tick := w.tick + 1 }

/-- The error report `NA_ERROR_DEFAULT(msg)`. -/
def NA_ERROR_DEFAULT (msg : String) (w : World) : World := w.log (Event.NA_ERROR msg)

/-- The `n` bytes of memory at address `a`. -/
def readBytes (mem : Nat → Nat) (a n : Nat) : List Nat := (List.range n).map (fun i => mem (a + i))

/-- Memory after storing the bytes `bs` at address `a`. -/
def writeBytes (mem : Nat → Nat) (a : Nat) (bs : List Nat) : Nat → Nat :=
  fun x => if a ≤ x ∧ x < a + bs.length then bs.getD (x - a) 0 else mem x

/-- Allocation `malloc(sizeof(...))`: a fresh non-null pointer. -/
def malloc (w : World) : Nat × World :=
  (w.brk + 1, { w with brk := w.brk + 1, trace := w.trace ++ [Event.malloc (w.brk + 1)] })

/-- Allocation of a request object; its contents are indeterminate. -/
def malloc_req (w : World) : Nat × World :=
  let (p, w1) := malloc w
  (p, { w1 with reqs := Function.update w1.reqs p (some w1.junk_req) })

/-- Allocation of an address object; its contents are indeterminate. -/
def malloc_addr (w : World) : Nat × World :=
  let (p, w1) := malloc w
  (p, { w1 with addrs := Function.update w1.addrs p (some w1.junk_addr) })

/-- Store into a request object; undefined when the pointer holds no request. -/
def set_req (p : Nat) (f : mpi_req_t → mpi_req_t) (w : World) : Option World :=
  match w.reqs p with
  | none => none
  | some r => some { w with reqs := Function.update w.reqs p (some (f r)) }

/-- The call `free(p)` on a request pointer: nothing for the null pointer, undefined when the
pointer holds no request. -/
def free_req (p : Nat) (w : World) : Option World :=
  if p = NULL then some w
  else match w.reqs p with
    | none => none
    | some _ => some { w with reqs := Function.update w.reqs p none, trace := w.trace ++ [Event.free p] }

/-- The call `free(p)` on an address pointer. -/
def free_addr (p : Nat) (w : World) : Option World :=
  if p = NULL then some w
  else match w.addrs p with
    | none => none
    | some _ => some { w with addrs := Function.update w.addrs p none, trace := w.trace ++ [Event.free p] }

/-- The call `free(p)` on a descriptor pointer. -/
def free_handle (p : Nat) (w : World) : Option World :=
  if p = NULL then some w
  else match w.handles p with
    | none => none
    | some _ => some { w with handles := Function.update w.handles p none, trace := w.trace ++ [Event.free p] }

/-- Lock of `mem_map_mutex`. -/
def hg_thread_mutex_lock (w : World) : World :=
  { w with mem_map_mutex := true, trace := w.trace ++ [Event.hg_thread_mutex_lock] }

/-- Unlock of `mem_map_mutex`. -/
def hg_thread_mutex_unlock (w : World) : World :=
  { w with mem_map_mutex := false, trace := w.trace ++ [Event.hg_thread_mutex_unlock] }

/-- Modelled from the spec: the hash table of `mercury_hash_table.h`, a map from base pointer to
descriptor; lookup gives the value stored under the key, or the null pointer. -/
def hg_hash_table_lookup (key : Nat) (w : World) : Nat × World :=
  ((w.mem_handle_map.lookup key).getD NULL, w.log (Event.hg_hash_table_lookup key))

/-- Modelled from the spec: insertion into the hash table of `mercury_hash_table.h`; it answers
non-zero and binds the key to the value, or answers zero (out of memory) and changes nothing.
Its answer is the flag of the reply of the outside. -/
def hg_hash_table_insert (key value : Nat) (w : World) : Int × World :=
  let rep := w.reply
  let w1 := w.step (Event.hg_hash_table_insert key value)
  if rep.flag ≠ 0 then
    (rep.flag, { w1 with mem_handle_map := (key, value) :: w1.mem_handle_map.filter (fun e => e.1 ≠ key) })
  else (0, w1)

/-- Modelled from the spec: removal from the hash table of `mercury_hash_table.h`; it answers
non-zero when the key was present. -/
def hg_hash_table_remove (key : Nat) (w : World) : Int × World :=
  let w1 := w.log (Event.hg_hash_table_remove key)
  if (w.mem_handle_map.lookup key).isSome then
    (1, { w1 with mem_handle_map := w1.mem_handle_map.filter (fun e => e.1 ≠ key) })
  else (0, w1)

/-- Completion of the request with handle `h` by a message with bytes `data`: a posted receive
stores at most its count of bytes at its target and is no longer posted. -/
def World.complete (w : World) (h : Option Nat) (data : List Nat) : World :=
  match h with
  | none => w
  | some k =>
    match w.posted.lookup k with
    | none => w
    | some (tgt, count) =>
      let w1 := { w with posted := w.posted.filter (fun e => e.1 ≠ k) }
      match tgt with
      | RecvTarget.var => w1
      | RecvTarget.mem a => { w1 with mem := writeBytes w1.mem a (data.take count.toNat) }
      | RecvTarget.ack p =>
        match w1.reqs p with
        | none => w1
        | some r =>
          { w1 with reqs := Function.update w1.reqs p (some { r with ack := (data.take count.toNat).headD r.ack }) }

/-- Read one of the two `MPI_Request` fields. -/
def mpi_req_t.field (r : mpi_req_t) : ReqField → Option Nat
  | ReqField.primary => r.request
  | ReqField.ack => r.ack_request

/-- Store into one of the two `MPI_Request` fields. -/
def mpi_req_t.setField (r : mpi_req_t) (f : ReqField) (v : Option Nat) : mpi_req_t :=
  match f with
  | ReqField.primary => { r with request := v }
  | ReqField.ack => { r with ack_request := v }

/-- The blocking `MPI_Send` of the bytes `payload`. -/
def MPI_Send (payload : List Nat) (count dest tag : Int) (comm : Nat) (w : World) : Int × World :=
  (w.reply.ret, w.step (Event.MPI_Send payload count dest tag comm))

/-- The blocking `MPI_Recv`: on success the bytes of the incoming message, cut at `count`, are
stored at the target; they are also handed back, for a target that is a local variable. -/
def MPI_Recv (target : RecvTarget) (count : Int) (source tag : Sel) (comm : Nat) (w : World) :
    (Int × List Nat × MPI_Status) × World :=
  let rep := w.reply
  let w1 := w.step (Event.MPI_Recv target count source tag comm)
  let bytes := rep.data.take count.toNat
  if rep.ret = MPI_SUCCESS then
    match target with
    | RecvTarget.mem a => ((rep.ret, bytes, rep.status), { w1 with mem := writeBytes w1.mem a bytes })
    | _ => ((rep.ret, bytes, rep.status), w1)
  else ((rep.ret, [], rep.status), w1)

/-- The non-blocking `MPI_Isend(..., &p->field)`: on success the handle of the library is stored
in the field of the request object at `p`. Undefined when `p` holds no request. -/
def MPI_Isend (payload : List Nat) (count dest tag : Int) (comm : Nat) (p : Nat) (f : ReqField)
    (w : World) : Option (Int × World) :=
  match w.reqs p with
  | none => none
  | some r =>
    let rep := w.reply
    let w1 := w.step (Event.MPI_Isend payload count dest tag comm)
    if rep.ret = MPI_SUCCESS then
      some (rep.ret, { w1 with reqs := Function.update w1.reqs p (some (r.setField f (some rep.request))) })
    else some (rep.ret, w1)

/-- The non-blocking `MPI_Irecv(..., &p->field)`: on success the receive is posted and its handle
is stored in the field of the request object at `p`. Undefined when `p` holds no request. -/
def MPI_Irecv (target : RecvTarget) (count source tag : Int) (comm : Nat) (p : Nat) (f : ReqField)
    (w : World) : Option (Int × World) :=
  match w.reqs p with
  | none => none
  | some r =>
    let rep := w.reply
    let w1 := w.step (Event.MPI_Irecv target count source tag comm)
    if rep.ret = MPI_SUCCESS then
      some (rep.ret, { w1 with
        reqs := Function.update w1.reqs p (some (r.setField f (some rep.request)))
        posted := (rep.request, (target, count)) :: w1.posted })
    else some (rep.ret, w1)

/-- The call `MPI_Iprobe`: return code, flag and status. -/
def MPI_Iprobe (source tag : Sel) (comm : Nat) (w : World) : (Int × Int × MPI_Status) × World :=
  ((w.reply.ret, w.reply.flag, w.reply.status), w.step (Event.MPI_Iprobe source tag comm))

/-- The call `MPI_Get_count(&status, MPI_BYTE, &count)`: a local query of the status. -/
def MPI_Get_count (status : MPI_Status) : Int := status.count

/-- The call `MPI_Test(&p->field, &flag, &status)`: when it succeeds with a non-zero flag the
request is completed and the field becomes `MPI_REQUEST_NULL`. -/
def MPI_Test (p : Nat) (f : ReqField) (w : World) : Option ((Int × Int × MPI_Status) × World) :=
  match w.reqs p with
  | none => none
  | some r =>
    let rep := w.reply
    let w1 := w.step (Event.MPI_Test (r.field f))
    if rep.ret = MPI_SUCCESS ∧ rep.flag ≠ 0 then
      let w2 := w1.complete (r.field f) rep.data
      match w2.reqs p with
      | none => none
      | some r2 =>
        some ((rep.ret, rep.flag, rep.status),
          { w2 with reqs := Function.update w2.reqs p (some (r2.setField f none)) })
    else some ((rep.ret, rep.flag, rep.status), w1)

/-- The call `MPI_Wait(&p->field, &status)`: when it succeeds the request is completed and the
field becomes `MPI_REQUEST_NULL`. -/
def MPI_Wait (p : Nat) (f : ReqField) (w : World) : Option ((Int × MPI_Status) × World) :=
  match w.reqs p with
  | none => none
  | some r =>
    let rep := w.reply
    let w1 := w.step (Event.MPI_Wait (r.field f))
    if rep.ret = MPI_SUCCESS then
      let w2 := w1.complete (r.field f) rep.data
      match w2.reqs p with
      | none => none
      | some r2 =>
        some ((rep.ret, rep.status),
          { w2 with reqs := Function.update w2.reqs p (some (r2.setField f none)) })
    else some ((rep.ret, rep.status), w1)

/-! ## The plugin -/

/-- Embedding of `na_mpi_get_unexpected_size`. -/
def na_mpi_get_unexpected_size (_w : World) : Nat :=
  let max_unexpected_size := NA_MPI_UNEXPECTED_SIZE
  max_unexpected_size

/-- Embedding of `na_mpi_addr_free`. -/
def na_mpi_addr_free (addr : Nat) (w : World) : Option (na_return_t × World) :=
  let mpi_addr := addr
  if mpi_addr = NULL then
    some (NA_FAIL, NA_ERROR_DEFAULT "Already freed" w)
  else do
    let a ← w.addrs mpi_addr
    if a.is_reference = false then
      let w := w.log Event.hg_thread_join
      let w := { w with mem_map_mutex := false, trace := w.trace ++ [Event.hg_thread_mutex_destroy] }
      let w := w.log (Event.MPI_Comm_free a.onesided_comm)
      let w := w.log (Event.MPI_Comm_disconnect a.comm)
      let w ← free_addr mpi_addr w
      pure (NA_SUCCESS, w)
    else
      let w ← free_addr mpi_addr w
      pure (NA_SUCCESS, w)

/-- Embedding of `na_mpi_mem_register`; the second component of the result is the pointer stored
in `*mem_handle`. -/
def na_mpi_mem_register (buf : Nat) (buf_size : Nat) (flags : Nat) (w : World) :
    (na_return_t × Nat) × World :=
  let mpi_buf_base := buf
  let mpi_buf_size := toAint buf_size
  let (mpi_mem_handle, w) := malloc w
  let h : mpi_mem_handle_t := { base := mpi_buf_base, size := mpi_buf_size, attr := flags }
  let w := { w with handles := Function.update w.handles mpi_mem_handle (some h) }
  let w := hg_thread_mutex_lock w
  let (inserted, w) := hg_hash_table_insert mpi_buf_base mpi_mem_handle w
  if inserted = 0 then
    ((NA_FAIL, mpi_mem_handle),
      hg_thread_mutex_unlock (NA_ERROR_DEFAULT "Could not register memory handle" w))
  else ((NA_SUCCESS, mpi_mem_handle), hg_thread_mutex_unlock w)

/-- Embedding of `na_mpi_mem_handle_serialize`. -/
def na_mpi_mem_handle_serialize (buf : Nat) (buf_size : Nat) (mem_handle : Nat) (w : World) :
    Option (na_return_t × World) :=
  let mpi_mem_handle := mem_handle
  if buf_size < sizeof_mpi_mem_handle_t then
    some (NA_FAIL, NA_ERROR_DEFAULT "Buffer size too small for serializing parameter" w)
  else do
    let h ← w.handles mpi_mem_handle
    pure (NA_SUCCESS, { w with mem := writeBytes w.mem buf h.image })

/-- Embedding of `na_mpi_mem_handle_deserialize`; `mem_handle` is the pointer held by the output
parameter before the call and the second component of the result the pointer it holds after. -/
def na_mpi_mem_handle_deserialize (mem_handle : Nat) (buf : Nat) (buf_size : Nat) (w : World) :
    (na_return_t × Nat) × World :=
  if buf_size < sizeof_mpi_mem_handle_t then
    ((NA_FAIL, mem_handle), NA_ERROR_DEFAULT "Buffer size too small for deserializing parameter" w)
  else
    let (mpi_mem_handle, w) := malloc w
    let h := mpi_mem_handle_t.ofImage (readBytes w.mem buf sizeof_mpi_mem_handle_t)
    let w := { w with handles := Function.update w.handles mpi_mem_handle (some h) }
    ((NA_SUCCESS, mpi_mem_handle), w)

/-- Embedding of `na_mpi_mem_handle_free`. -/
def na_mpi_mem_handle_free (mem_handle : Nat) (w : World) : Option (na_return_t × World) :=
  let mpi_mem_handle := mem_handle
  if mpi_mem_handle ≠ NULL then do
    let w ← free_handle mpi_mem_handle w
    pure (NA_SUCCESS, w)
  else some (NA_FAIL, NA_ERROR_DEFAULT "Already freed" w)

/-- Embedding of `na_mpi_put`. `NA_MEM_READWRITE` is the constant of `na.h`; `request` is the
pointer held by the output parameter before the call and the second component of the result the
pointer it holds after. -/
def na_mpi_put (NA_MEM_READWRITE : Nat) (local_mem_handle : Nat) (local_offset : Int)
    (remote_mem_handle : Nat) (remote_offset : Int) (length : Nat) (remote_addr : Nat)
    (request : Nat) (w : World) : Option ((na_return_t × Nat) × World) := do
  let mpi_local_mem_handle := local_mem_handle
  let mpi_local_offset := toAint local_offset
  let mpi_remote_mem_handle := remote_mem_handle
  let mpi_remote_offset := toAint remote_offset
  let mpi_length := toInt length
  let mpi_remote_addr := remote_addr
  let rh ← w.handles mpi_remote_mem_handle
  if rh.attr ≠ NA_MEM_READWRITE then
    pure ((NA_FAIL, request), NA_ERROR_DEFAULT "Registered memory requires write permission" w)
  else
    let (mpi_request, w) := malloc_req w
    let w ← set_req mpi_request
      (fun _ => { type := MPI_SEND_OP, ack := 0, ack_request := none, request := none }) w
    let ra ← w.addrs mpi_remote_addr
    let onesided_info : mpi_onesided_info_t :=
      { base := rh.base, disp := mpi_remote_offset, count := mpi_length, op := MPI_ONESIDED_PUT }
    let (_, w) := MPI_Send onesided_info.image sizeof_mpi_onesided_info_t ra.rank
      NA_MPI_ONESIDED_TAG ra.onesided_comm w
    let lh ← w.handles mpi_local_mem_handle
    let (mpi_ret, w) ← MPI_Isend
      (readBytes w.mem (ptr_add lh.base mpi_local_offset) mpi_length.toNat) mpi_length ra.rank
      NA_MPI_ONESIDED_TAG ra.onesided_comm mpi_request ReqField.primary w
    let (mpi_request, ret, w) ←
      if mpi_ret ≠ MPI_SUCCESS then
        (free_req mpi_request (NA_ERROR_DEFAULT "MPI_Isend() failed" w)).map
          (fun w => (NULL, NA_FAIL, w))
      else some (mpi_request, NA_SUCCESS, w)
    let (mpi_ret, w) ← MPI_Irecv (RecvTarget.ack mpi_request) 1 ra.rank
      NA_MPI_ONESIDED_ACK_TAG ra.onesided_comm mpi_request ReqField.ack w
    if mpi_ret ≠ MPI_SUCCESS then
      let w ← free_req mpi_request (NA_ERROR_DEFAULT "MPI_Irecv() failed" w)
      pure ((NA_FAIL, request), w)
    else pure ((ret, mpi_request), w)

/-- Embedding of `na_mpi_get`; `request` as in `na_mpi_put`. -/
def na_mpi_get (local_mem_handle : Nat) (local_offset : Int)
    (remote_mem_handle : Nat) (remote_offset : Int) (length : Nat) (remote_addr : Nat)
    (request : Nat) (w : World) : Option ((na_return_t × Nat) × World) := do
  let mpi_local_mem_handle := local_mem_handle
  let mpi_local_offset := toAint local_offset
  let mpi_remote_mem_handle := remote_mem_handle
  let mpi_remote_offset := toAint remote_offset
  let mpi_length := toInt length
  let mpi_remote_addr := remote_addr
  let (mpi_request, w) := malloc_req w
  let w ← set_req mpi_request
    (fun _ => { type := MPI_RECV_OP, ack := 0, ack_request := none, request := none }) w
  let rh ← w.handles mpi_remote_mem_handle
  let ra ← w.addrs mpi_remote_addr
  let onesided_info : mpi_onesided_info_t :=
    { base := rh.base, disp := mpi_remote_offset, count := mpi_length, op := MPI_ONESIDED_GET }
  let (_, w) := MPI_Send onesided_info.image sizeof_mpi_onesided_info_t ra.rank
    NA_MPI_ONESIDED_TAG ra.onesided_comm w
  let lh ← w.handles mpi_local_mem_handle
  let (mpi_ret, w) ← MPI_Irecv (RecvTarget.mem (ptr_add lh.base mpi_local_offset)) mpi_length
    ra.rank NA_MPI_ONESIDED_TAG ra.onesided_comm mpi_request ReqField.primary w
  if mpi_ret ≠ MPI_SUCCESS then
    let w ← free_req mpi_request (NA_ERROR_DEFAULT "MPI_Irecv() failed" w)
    pure ((NA_FAIL, request), w)
  else pure ((NA_SUCCESS, mpi_request), w)

/-- The store `status->completed = c` of `na_mpi_wait`, guarded by
`status && status != NA_STATUS_IGNORE`. -/
def StatusArg.setCompleted (status : StatusArg) (c : Bool) : StatusArg :=
  match status with
  | StatusArg.ptr s => StatusArg.ptr { s with completed := c }
  | s => s

/-- The stores `status->count = n; status->completed = 1` of `na_mpi_wait`, under the same
guard. -/
def StatusArg.setDone (status : StatusArg) (n : Nat) : StatusArg :=
  match status with
  | StatusArg.ptr _ => StatusArg.ptr { completed := true, count := n }
  | s => s

/-- The part of `na_mpi_wait` after the comment "Here we know that the request has completed":
fill the status, wait for the acknowledgement if there is one, release the request object. -/
def na_mpi_wait_completed (mpi_request : Nat) (status : StatusArg) (mpi_status : MPI_Status)
    (w : World) : Option ((na_return_t × StatusArg) × World) := do
  let r ← w.reqs mpi_request
  let status :=
    if r.type = MPI_RECV_OP then
      let count := MPI_Get_count mpi_status
      status.setDone (toSize count)
    else status.setDone 0
  if r.ack_request ≠ none then
    let ((mpi_ret, _), w) ← MPI_Wait mpi_request ReqField.ack w
    if mpi_ret ≠ MPI_SUCCESS then
      pure ((NA_FAIL, status), NA_ERROR_DEFAULT "MPI_Wait() failed" w)
    else
      let w ← free_req mpi_request w
      pure ((NA_SUCCESS, status), w)
  else
    let w ← free_req mpi_request w
    pure ((NA_SUCCESS, status), w)

/-- Embedding of `na_mpi_wait`; the second component of the result is the status argument after
the call. -/
def na_mpi_wait (request : Nat) (timeout : Nat) (status : StatusArg) (w : World) :
    Option ((na_return_t × StatusArg) × World) :=
  let mpi_request := request
  if mpi_request = NULL then
    some ((NA_FAIL, status), NA_ERROR_DEFAULT "NULL request" w)
  else if timeout = 0 then do
    let ((mpi_ret, mpi_flag, mpi_status), w) ← MPI_Test mpi_request ReqField.primary w
    if mpi_ret ≠ MPI_SUCCESS then
      pure ((NA_FAIL, status), NA_ERROR_DEFAULT "MPI_Test() failed" w)
    else if mpi_flag = 0 then
      pure ((NA_SUCCESS, status.setCompleted false), w)
    else na_mpi_wait_completed mpi_request status mpi_status w
  else do
    let ((mpi_ret, mpi_status), w) ← MPI_Wait mpi_request ReqField.primary w
    if mpi_ret ≠ MPI_SUCCESS then
      pure ((NA_FAIL, status), NA_ERROR_DEFAULT "MPI_Wait() failed" w)
    else na_mpi_wait_completed mpi_request status mpi_status w

/-- Result and output parameters of `na_mpi_recv_unexpected`. A pointer parameter that may be
null is `none` when null and `some v` when it points to a variable holding `v`; `request` is the
pointer held by the request output. -/
structure RecvUnexpected where
  ret : na_return_t
  actual_buf_size : Option Nat
  source : Option Nat
  tag : Option Int
  request : Nat
  deriving DecidableEq, Repr

/-- Embedding of `na_mpi_recv_unexpected`. The arguments `actual_buf_size`, `source`, `tag` and
`request` give the state of the output parameters before the call. -/
def na_mpi_recv_unexpected (buf : Nat) (buf_size : Nat) (actual_buf_size : Option Nat)
    (source : Option Nat) (tag : Option Int) (request : Nat) (w : World) :
    Option (RecvUnexpected × World) :=
  let out : RecvUnexpected :=
    { ret := NA_SUCCESS, actual_buf_size := actual_buf_size, source := source, tag := tag,
      request := request }
  if buf = NULL then
    some ({ out with ret := NA_FAIL }, NA_ERROR_DEFAULT "NULL buffer" w)
  else
    let ((mpi_ret, flag, mpi_status), w) :=
      MPI_Iprobe Sel.any Sel.any w.server_remote_addr.comm w
    if mpi_ret ≠ MPI_SUCCESS then
      some ({ out with ret := NA_FAIL }, NA_ERROR_DEFAULT "MPI_Iprobe() failed" w)
    else if flag = 0 then some (out, w)
    else
      let mpi_buf_size := MPI_Get_count mpi_status
      if mpi_buf_size > toInt buf_size then
        some ({ out with ret := NA_FAIL },
          NA_ERROR_DEFAULT "Buffer too small to recv unexpected data" w)
      else do
        let mpi_source := mpi_status.MPI_SOURCE
        let mpi_tag := mpi_status.MPI_TAG
        let actual_buf_size := actual_buf_size.map (fun _ => toSize mpi_buf_size)
        let (source, w) ←
          match source with
          | none => some (none, w)
          | some _ =>
            let (peer_addr, w) := malloc_addr w
            let a : mpi_addr_t :=
              { comm := w.server_remote_addr.comm, rank := mpi_source, is_reference := true,
                onesided_comm := w.server_remote_addr.onesided_comm }
            some (some peer_addr, { w with addrs := Function.update w.addrs peer_addr (some a) })
        let tag := tag.map (fun _ => mpi_tag)
        let (mpi_request, w) := malloc_req w
        let w ← set_req mpi_request
          (fun r => { r with type := MPI_RECV_OP, ack := 0, ack_request := none }) w
        let (mpi_ret, w) ← MPI_Irecv (RecvTarget.mem buf) mpi_buf_size mpi_source mpi_tag
          w.server_remote_addr.comm mpi_request ReqField.primary w
        let out : RecvUnexpected :=
          { ret := NA_SUCCESS, actual_buf_size := actual_buf_size, source := source, tag := tag,
            request := request }
        if mpi_ret ≠ MPI_SUCCESS then
          let w ← free_req mpi_request (NA_ERROR_DEFAULT "MPI_Irecv() failed" w)
          match source with
          | none => pure ({ out with ret := NA_FAIL }, w)
          | some peer_addr =>
            let (_, w) ← na_mpi_addr_free peer_addr w
            pure ({ out with ret := NA_FAIL }, w)
        else pure ({ out with request := mpi_request }, w)

/-- One pass through the body of the `while` loop of `na_mpi_onesided_service`. The first
component of the result tells whether the loop is left (`break`). -/
def na_mpi_onesided_service_iteration (mpi_remote_addr : Nat) (w : World) :
    Option (Bool × World) := do
  let a ← w.addrs mpi_remote_addr
  let mpi_onesided_comm := a.onesided_comm
  let ((mpi_ret, bytes, mpi_status), w) :=
    MPI_Recv RecvTarget.var sizeof_mpi_onesided_info_t Sel.any Sel.any mpi_onesided_comm w
  if mpi_ret ≠ MPI_SUCCESS then
    pure (true, NA_ERROR_DEFAULT "MPI_Recv() failed" w)
  else
    let onesided_info := mpi_onesided_info_t.ofImage bytes
    if onesided_info.op = MPI_ONESIDED_END then pure (true, w)
    else
      let w := hg_thread_mutex_lock w
      let (mpi_mem_handle, w) := hg_hash_table_lookup onesided_info.base w
      if mpi_mem_handle = NULL then
        pure (true, hg_thread_mutex_unlock
          (NA_ERROR_DEFAULT "Could not find memory handle, registered?" w))
      else if onesided_info.op = MPI_ONESIDED_PUT then
        let h ← w.handles mpi_mem_handle
        let (_, w) := MPI_Recv (RecvTarget.mem (ptr_add h.base onesided_info.disp))
          onesided_info.count (Sel.is mpi_status.MPI_SOURCE) (Sel.is NA_MPI_ONESIDED_TAG)
          mpi_onesided_comm w
        let (_, w) := MPI_Send [w.junk_byte] 1 mpi_status.MPI_SOURCE NA_MPI_ONESIDED_ACK_TAG
          mpi_onesided_comm w
        pure (false, hg_thread_mutex_unlock w)
      else if onesided_info.op = MPI_ONESIDED_GET then
        let h ← w.handles mpi_mem_handle
        let (_, w) := MPI_Send
          (readBytes w.mem (ptr_add h.base onesided_info.disp) onesided_info.count.toNat)
          onesided_info.count mpi_status.MPI_SOURCE NA_MPI_ONESIDED_TAG mpi_onesided_comm w
        pure (false, hg_thread_mutex_unlock w)
      else
        pure (false, hg_thread_mutex_unlock (NA_ERROR_DEFAULT "Operation not supported" w))

/-- Embedding of `na_mpi_onesided_service`, the loop run for at most `fuel` passes. The first
component of the result tells whether the function has returned. -/
def na_mpi_onesided_service : Nat → Nat → World → Option (Bool × World)
  | fuel, args, w =>
    let mpi_remote_addr := args
    if mpi_remote_addr = NULL then some (true, NA_ERROR_DEFAULT "NULL address" w)
    else
      match fuel with
      | 0 => some (false, w)
      | n + 1 =>
        match na_mpi_onesided_service_iteration mpi_remote_addr w with
        | none => none
        | some (true, w1) => some (true, w1)
        | some (false, w1) => na_mpi_onesided_service n args w1

/-- The null communicator. -/
def MPI_COMM_NULL : Nat := 0

/-- The call `MPI_Comm_connect(port_name, MPI_INFO_NULL, 0, mpi_intra_comm, &p->comm)`: on
success the handle of the new communicator (the handle of the reply) is stored in the `comm`
field of the address object at `p`. Undefined when `p` holds no address. -/
def MPI_Comm_connect (port_name : Nat) (p : Nat) (w : World) : Option (Int × World) :=
  match w.addrs p with
  | none => none
  | some a =>
    let rep := w.reply
    let w1 := w.step (Event.MPI_Comm_connect port_name)
    if rep.ret = MPI_SUCCESS then
      some (rep.ret, { w1 with addrs := Function.update w1.addrs p (some { a with comm := rep.request }) })
    else some (rep.ret, w1)

/-- The call `MPI_Comm_remote_size(comm, &remote_size)`: the size is the integer answer (the
flag) of the reply. -/
def MPI_Comm_remote_size (comm : Nat) (w : World) : Int × World :=
  (w.reply.flag, w.step (Event.MPI_Comm_remote_size comm))

/-- The call `MPI_Comm_dup(p->comm, &p->onesided_comm)`: reads the `comm` field of the address
object at `p` and, on success, stores the handle of the copy in its `onesided_comm` field.
Undefined when `p` holds no address. -/
def MPI_Comm_dup (p : Nat) (w : World) : Option (Int × World) :=
  match w.addrs p with
  | none => none
  | some a =>
    let rep := w.reply
    let w1 := w.step (Event.MPI_Comm_dup a.comm)
    if rep.ret = MPI_SUCCESS then
      some (rep.ret,
        { w1 with addrs := Function.update w1.addrs p (some { a with onesided_comm := rep.request }) })
    else some (rep.ret, w1)

/-- Embedding of `na_mpi_addr_lookup`. `name` is the pointer to the port name; `addr` is `none`
for a null output parameter and `some v` for one that holds `v`, and the second component of the
result is its state after the call. -/
def na_mpi_addr_lookup (name : Nat) (addr : Option Nat) (w : World) :
    Option ((na_return_t × Option Nat) × World) := do
  let port_name := name
  let (mpi_addr, w) := malloc_addr w
  let a ← w.addrs mpi_addr
  let a : mpi_addr_t := { a with comm := MPI_COMM_NULL, is_reference := false, rank := 0 }
  let w := { w with addrs := Function.update w.addrs mpi_addr (some a) }
  let (mpi_ret, w) ← MPI_Comm_connect port_name mpi_addr w
  let (mpi_addr, ret, addr, w) ←
    if mpi_ret ≠ MPI_SUCCESS then
      (free_addr mpi_addr (NA_ERROR_DEFAULT "Could not connect" w)).map
        (fun w => (NULL, NA_FAIL, addr, w))
    else
      (w.addrs mpi_addr).map (fun a =>
        let (remote_size, w) := MPI_Comm_remote_size a.comm w
        let w := if remote_size ≠ 1 then NA_ERROR_DEFAULT "Connected to more than one server?" w
          else w
        (mpi_addr, NA_SUCCESS, addr.map (fun _ => mpi_addr), w))
  let (_, w) ← MPI_Comm_dup mpi_addr w
  let w := { w with mem_map_mutex := false, trace := w.trace ++ [Event.hg_thread_mutex_init] }
  let w := w.log (Event.hg_thread_create mpi_addr)
  pure ((ret, addr), w)

/-- Embedding of `na_mpi_mem_deregister`. -/
def na_mpi_mem_deregister (mem_handle : Nat) (w : World) : Option (na_return_t × World) := do
  let mpi_mem_handle := mem_handle
  let w := hg_thread_mutex_lock w
  let h ← w.handles mpi_mem_handle
  let (removed, w) := hg_hash_table_remove h.base w
  let (ret, w) :=
    if removed = 0 then (NA_FAIL, NA_ERROR_DEFAULT "Could not deregister memory handle" w)
    else (NA_SUCCESS, w)
  let w := hg_thread_mutex_unlock w
  if mpi_mem_handle ≠ NULL then
    let w ← free_handle mpi_mem_handle w
    pure (ret, w)
  else pure (NA_FAIL, NA_ERROR_DEFAULT "Already freed" w)

/-- The call `MPI_Finalized(&flag)`: the flag of the reply. -/
def MPI_Finalized (w : World) : Int × World :=
  (w.reply.flag, w.step Event.MPI_Finalized)

/-- Embedding of `na_mpi_finalize`. The `for` loop over the ranks `0 .. num_clients - 1` is a
fold over that range; the return codes of the sends are not looked at, as in the source. -/
def na_mpi_finalize (w : World) : na_return_t × World :=
  let w :=
    if w.is_server then
      let onesided_info : mpi_onesided_info_t :=
        { base := NULL, count := 0, disp := 0, op := MPI_ONESIDED_END }
      let (num_clients, w) := MPI_Comm_remote_size w.server_remote_addr.onesided_comm w
      let w := (List.range num_clients.toNat).foldl
        (fun (w : World) (i : Nat) =>
          (MPI_Send onesided_info.image sizeof_mpi_onesided_info_t (i : Int)
            NA_MPI_ONESIDED_TAG w.server_remote_addr.onesided_comm w).2) w
      let w := w.log (Event.MPI_Comm_free w.server_remote_addr.onesided_comm)
      let w := { w with
        server_remote_addr := { w.server_remote_addr with onesided_comm := MPI_COMM_NULL } }
      let w := w.log (Event.MPI_Comm_disconnect w.server_remote_addr.comm)
      let w := { w with server_remote_addr := { w.server_remote_addr with comm := MPI_COMM_NULL } }
      w.log Event.MPI_Close_port
    else w
  let w := { w with mem_handle_map := [], trace := w.trace ++ [Event.hg_hash_table_free] }
  let w := w.log (Event.MPI_Comm_free w.mpi_intra_comm)
  let w := { w with mpi_intra_comm := MPI_COMM_NULL }
  let (mpi_ext_finalized, w) := MPI_Finalized w
  let (ret, w) :=
    if mpi_ext_finalized ≠ 0 then (NA_FAIL, NA_ERROR_DEFAULT "MPI already finalized" w)
    else (NA_SUCCESS, w)
  let w := if w.mpi_ext_initialized = 0 ∧ mpi_ext_finalized = 0 then w.log Event.MPI_Finalize else w
  (ret, w)

/-! ## Sample states -/

/-- An answer of the library: success, flag set, a message of five bytes from rank 3 with
tag 7, request handle 40. -/
def sample_reply : Reply :=
  { ret := 0, flag := 1, status := { MPI_SOURCE := 3, MPI_TAG := 7, count := 5 }, request := 40,
    data := [104, 101, 108, 108, 111] }

/-- A client process: a read-write descriptor at pointer 1 for the region at 4096, a read-only
one at pointer 2 for the region at 8192, the server address at pointer 3, every external call
answered by `sample_reply`. -/
def sample_world : World :=
  { mem := fun a => a % 251
    handles := fun p =>
      if p = 1 then some { base := 4096, size := 1024, attr := 0 }
      else if p = 2 then some { base := 8192, size := 1024, attr := 1 }
      else none
    reqs := fun _ => none
    addrs := fun p =>
      if p = 3 then some { comm := 10, rank := 0, is_reference := false, onesided_comm := 11 }
      else none
    brk := 3
    mem_handle_map := [(4096, 1), (8192, 2)]
    mem_map_mutex := false
    is_server := false
    server_remote_addr := { comm := 20, rank := -1, is_reference := false, onesided_comm := 21 }
    mpi_ext_initialized := 0
    mpi_intra_comm := 5
    posted := []
    junk_req := { type := MPI_SEND_OP, request := some 99, ack := 77, ack_request := some 98 }
    junk_addr := { comm := 0, rank := 0, is_reference := false, onesided_comm := 0 }
    junk_byte := 85
    oracle := fun _ => sample_reply
    tick := 0
    trace := [] }

/-- A process that has issued an emulated put: the request object at pointer 5 carries the
payload send (handle 40) and the pre-posted receive of the acknowledgement (handle 41). The
library answers success to the first call and an error to every later one. -/
def sample_world_put_issued : World :=
  { sample_world with
    reqs := fun p =>
      if p = 5 then
        some { type := MPI_SEND_OP, request := some 40, ack := 0, ack_request := some 41 }
      else none
    brk := 5
    posted := [(41, (RecvTarget.ack 5, 1))]
    oracle := fun t => if t = 0 then sample_reply else { sample_reply with ret := 1 } }

/-- A process that has posted a receive of five bytes at address 600: the request object at
pointer 4 carries its handle 40. Every external call is answered by `sample_reply`. -/
def sample_world_recv_posted : World :=
  { sample_world with
    reqs := fun p =>
      if p = 4 then
        some { type := MPI_RECV_OP, request := some 40, ack := 0, ack_request := none }
      else none
    brk := 4
    posted := [(40, (RecvTarget.mem 600, 5))] }

/-- The same process when the library answers every test with a clear flag. -/
def sample_world_recv_pending : World :=
  { sample_world_recv_posted with oracle := fun _ => { sample_reply with flag := 0 } }

/-- A server process; every probe finds a message of five bytes from rank 3 with tag 7. -/
def sample_server : World :=
  { sample_world with is_server := true }

/-- A server process; every probe finds a message of 5000 bytes from rank 3 with tag 7. -/
def sample_server_oversize : World :=
  { sample_world with
    is_server := true
    oracle := fun _ =>
      { sample_reply with status := { MPI_SOURCE := 3, MPI_TAG := 7, count := 5000 } } }

/-- A server process; every probe finds a message of 200 bytes from rank 3 with tag 7. -/
def sample_server_200 : World :=
  { sample_world with
    is_server := true
    oracle := fun _ =>
      { sample_reply with status := { MPI_SOURCE := 3, MPI_TAG := 7, count := 200 } } }

/-- The control record of a get of 8 bytes at offset 16 of the region at 4096. -/
def sample_get_record : mpi_onesided_info_t :=
  { base := 4096, disp := 16, count := 8, op := MPI_ONESIDED_GET }

/-- The control record of a put of 8 bytes at offset 16 of the region at 4096. -/
def sample_put_record : mpi_onesided_info_t :=
  { base := 4096, disp := 16, count := 8, op := MPI_ONESIDED_PUT }

/-- A process that exposes memory, before any registration: no descriptor, an empty handle map,
the address of its peer at pointer 3. Its second external call is the receive of the service,
which gets `sample_get_record` from rank 0. -/
def sample_target : World :=
  { sample_world with
    handles := fun _ => none
    brk := 3
    mem_handle_map := []
    oracle := fun t =>
      if t = 1 then
        { sample_reply with
          status := { MPI_SOURCE := 0, MPI_TAG := 128, count := 24 }
          data := sample_get_record.image }
      else sample_reply }

/-- The state of `sample_target` after it has registered the 1024 bytes at 4096 with flags 0. -/
def sample_target_registered : World :=
  (na_mpi_mem_register 4096 1024 0 sample_target).2

/-- The process that initiates the get: its third external call, the wait, completes with the
eight bytes that `sample_target` holds at address 4112. -/
def sample_initiator : World :=
  { sample_world with
    oracle := fun t =>
      if t = 2 then { sample_reply with data := readBytes sample_target.mem 4112 8 }
      else sample_reply }

/-- The process that initiates a put; the library hands out a different request handle at every
call. -/
def sample_put_initiator : World :=
  { sample_world with oracle := fun t => { sample_reply with request := 40 + t } }

/-- A process that exposes memory, before any registration, like `sample_target`. Its second
external call is the receive of the service, which gets `sample_put_record` from rank 0, and its
third the receive of the payload: the eight bytes that `sample_put_initiator` holds at 8200. -/
def sample_put_target : World :=
  { sample_target with
    oracle := fun t =>
      if t = 1 then
        { sample_reply with
          status := { MPI_SOURCE := 0, MPI_TAG := 128, count := 24 }
          data := sample_put_record.image }
      else if t = 2 then
        { sample_reply with data := readBytes sample_put_initiator.mem 8200 8 }
      else sample_reply }

/-- The state of `sample_put_target` after it has registered the 1024 bytes at 4096 with
flags 0. -/
def sample_put_target_registered : World :=
  (na_mpi_mem_register 4096 1024 0 sample_put_target).2

/-- A server process whose probe finds no pending message. -/
def sample_server_idle : World :=
  { sample_world with
    is_server := true
    oracle := fun _ => { sample_reply with flag := 0 } }

/-- A server process that holds, at pointer 4, the reference address of the peer of rank 3. -/
def sample_server_with_peer : World :=
  { sample_world with
    is_server := true
    addrs := fun p =>
      if p = 4 then some { comm := 20, rank := 3, is_reference := true, onesided_comm := 21 }
      else none
    brk := 4 }

/-- The process that initiates a put when the library refuses the payload send: its second
external call, `MPI_Isend`, answers an error. -/
def sample_put_isend_fails : World :=
  { sample_world with
    oracle := fun t => if t = 1 then { sample_reply with ret := 1 } else sample_reply }

/-- A client process whose connection attempt fails: every external call answers an error. -/
def sample_connect_fails : World :=
  { sample_world with oracle := fun _ => { sample_reply with ret := 1 } }

/-- A process that has registered nothing and whose service receives, at every pass, the
control record `sample_get_record` from rank 0. -/
def sample_service_unregistered : World :=
  { sample_target with
    oracle := fun _ =>
      { sample_reply with
        status := { MPI_SOURCE := 0, MPI_TAG := 128, count := 24 }
        data := sample_get_record.image } }

/-- A control record with an operation that is none of put, get and end, for base 4096. -/
def sample_unsupported_record : mpi_onesided_info_t :=
  { base := 4096, disp := 16, count := 8, op := 7 }

/-- A process that has registered nothing and whose service receives, at every pass, the
control record `sample_unsupported_record` from rank 0. -/
def sample_service_unsupported : World :=
  { sample_target with
    oracle := fun _ =>
      { sample_reply with
        status := { MPI_SOURCE := 0, MPI_TAG := 128, count := 24 }
        data := sample_unsupported_record.image } }

/-- A server with two peers on the side channel: its first external call, the query of the
remote size, answers 2, and MPI is not finalized. -/
def sample_server_two_peers : World :=
  { sample_world with
    is_server := true
    oracle := fun t => if t = 0 then { sample_reply with flag := 2 }
      else { sample_reply with flag := 0 } }

/-- A client when MPI is not finalized. -/
def sample_client_finalizing : World :=
  { sample_world with oracle := fun _ => { sample_reply with flag := 0 } }

/-! ## Byte images -/

theorem toLE_length (k x : Nat) : (toLE k x).length = k := by
  induction k generalizing x with
  | zero => rfl
  | succ k ih => simp [toLE, ih]

theorem fromLE_toLE (k x : Nat) : fromLE (toLE k x) = x % 256 ^ k := by
  induction k generalizing x with
  | zero => simp [toLE, fromLE, Nat.mod_one]
  | succ k ih =>
    simp only [toLE, fromLE, ih]
    rw [pow_succ, Nat.mul_comm (256 ^ k) 256, Nat.mod_mul]

theorem fromLESigned_toLESigned_8 (x : Int) (h1 : -(2 ^ 63 : Int) ≤ x) (h2 : x < (2 ^ 63 : Int)) :
    fromLESigned 8 (toLESigned 8 x) = x := by
  unfold fromLESigned toLESigned wrapSigned
  rw [fromLE_toLE]
  have e : ((((x % (2 ^ (8 * 8) : Int)).toNat % 256 ^ 8 : Nat) : Int)) = x % (2 ^ 64 : Int) := by
    norm_num
    omega
  rw [e]
  norm_num at h1 h2 ⊢
  split_ifs <;> omega

theorem fromLESigned_toLESigned_4 (x : Int) (h1 : -(2 ^ 31 : Int) ≤ x) (h2 : x < (2 ^ 31 : Int)) :
    fromLESigned 4 (toLESigned 4 x) = x := by
  unfold fromLESigned toLESigned wrapSigned
  rw [fromLE_toLE]
  have e : ((((x % (2 ^ (8 * 4) : Int)).toNat % 256 ^ 4 : Nat) : Int)) = x % (2 ^ 32 : Int) := by
    norm_num
    omega
  rw [e]
  norm_num at h1 h2 ⊢
  split_ifs <;> omega

theorem fromLE_toLE_8 (x : Nat) (h : x < 2 ^ 64) : fromLE (toLE 8 x) = x := by
  rw [fromLE_toLE]
  exact Nat.mod_eq_of_lt (by norm_num at h ⊢; exact h)

theorem readBytes_length (mem : Nat → Nat) (a n : Nat) : (readBytes mem a n).length = n := by
  simp [readBytes]

theorem readBytes_writeBytes (mem : Nat → Nat) (a : Nat) (bs : List Nat) :
    readBytes (writeBytes mem a bs) a bs.length = bs := by
  apply List.ext_getElem
  · simp [readBytes]
  · intro i h1 h2
    simp [readBytes, writeBytes, h2, List.getD_eq_getElem]

theorem readBytes_writeBytes_of_length (mem : Nat → Nat) (a n : Nat) (bs : List Nat)
    (h : bs.length = n) : readBytes (writeBytes mem a bs) a n = bs := by
  subst h
  exact readBytes_writeBytes mem a bs

theorem mem_handle_image_length (h : mpi_mem_handle_t) :
    h.image.length = sizeof_mpi_mem_handle_t := by
  simp [mpi_mem_handle_t.image, toLESigned, toLE_length, sizeof_mpi_mem_handle_t]

theorem mem_handle_ofImage_image (h : mpi_mem_handle_t) (hwf : h.wf) :
    mpi_mem_handle_t.ofImage h.image = h := by
  obtain ⟨hb, ⟨hs1, hs2⟩, ha⟩ := hwf
  have l1 : (toLE 8 h.base).length = 8 := toLE_length 8 h.base
  have l2 : (toLESigned 8 h.size).length = 8 := toLE_length 8 _
  have l3 : (toLE 8 h.attr).length = 8 := toLE_length 8 h.attr
  have t1 : (h.image).take 8 = toLE 8 h.base := List.take_left' l1
  have d1 : (h.image).drop 8 = toLESigned 8 h.size ++ toLE 8 h.attr := List.drop_left' l1
  have t2 : ((h.image).drop 8).take 8 = toLESigned 8 h.size := by
    rw [d1]; exact List.take_left' l2
  have t3 : ((h.image).drop 16).take 8 = toLE 8 h.attr := by
    have d2 : (h.image).drop 16 = toLE 8 h.attr := by
      have e : (h.image).drop 16 = ((h.image).drop 8).drop 8 := by rw [List.drop_drop]
      rw [e, d1]; exact List.drop_left' l2
    rw [d2]; exact List.take_of_length_le (le_of_eq l3)
  unfold mpi_mem_handle_t.ofImage
  rw [t1, t2, t3, fromLE_toLE_8 _ hb, fromLE_toLE_8 _ ha, fromLESigned_toLESigned_8 _ hs1 hs2]

/-! ## Memory handles: serialize then deserialize -/

theorem na_mpi_mem_handle_serialize_ok (w : World) (p : Nat) (h : mpi_mem_handle_t)
    (buf n : Nat) (hp : w.handles p = some h) (hn : sizeof_mpi_mem_handle_t ≤ n) :
    na_mpi_mem_handle_serialize buf n p w
      = some (NA_SUCCESS, { w with mem := writeBytes w.mem buf h.image }) := by
  simp [na_mpi_mem_handle_serialize, Nat.not_lt.mpr hn, hp]

theorem na_mpi_mem_handle_deserialize_ok (w : World) (old buf n : Nat)
    (hn : sizeof_mpi_mem_handle_t ≤ n) :
    na_mpi_mem_handle_deserialize old buf n w
      = ((NA_SUCCESS, w.brk + 1),
          { w with
            brk := w.brk + 1
            trace := w.trace ++ [Event.malloc (w.brk + 1)]
            handles := Function.update w.handles (w.brk + 1)
              (some (mpi_mem_handle_t.ofImage (readBytes w.mem buf sizeof_mpi_mem_handle_t))) }) := by
  simp [na_mpi_mem_handle_deserialize, Nat.not_lt.mpr hn, malloc]

/-- C1: for every descriptor `h` held at a valid pointer and every buffer size
`n >= sizeof(mpi_mem_handle_t)`, `na_mpi_mem_handle_serialize` into the buffer succeeds, and
`na_mpi_mem_handle_deserialize` of that buffer then succeeds and outputs a pointer to a
descriptor with the same base, size and flags. -/
theorem C1_serialize_deserialize_roundtrip (w : World) (p : Nat) (h : mpi_mem_handle_t)
    (buf n old : Nat) (hp : w.handles p = some h) (hwf : h.wf)
    (hn : sizeof_mpi_mem_handle_t ≤ n) :
    ∃ w1 q w2 h2, na_mpi_mem_handle_serialize buf n p w = some (NA_SUCCESS, w1) ∧
      na_mpi_mem_handle_deserialize old buf n w1 = ((NA_SUCCESS, q), w2) ∧
      w2.handles q = some h2 ∧ h2.base = h.base ∧ h2.size = h.size ∧ h2.attr = h.attr := by
  refine ⟨_, _, _, h, na_mpi_mem_handle_serialize_ok w p h buf n hp hn,
    na_mpi_mem_handle_deserialize_ok _ old buf n hn, ?_, rfl, rfl, rfl⟩
  simp [readBytes_writeBytes_of_length _ _ _ _ (mem_handle_image_length h),
    mem_handle_ofImage_image h hwf]

/-- C1 at the sample state: the read-write descriptor at pointer 1, a buffer of exactly
`sizeof(mpi_mem_handle_t)` bytes at address 500. -/
theorem C1_serialize_deserialize_roundtrip_witness :
    sample_world.handles 1 = some { base := 4096, size := 1024, attr := 0 } ∧
    (∃ w1 q w2 h2, na_mpi_mem_handle_serialize 500 24 1 sample_world = some (NA_SUCCESS, w1) ∧
      na_mpi_mem_handle_deserialize 0 500 24 w1 = ((NA_SUCCESS, q), w2) ∧
      w2.handles q = some h2 ∧ h2.base = 4096 ∧ h2.size = 1024 ∧ h2.attr = 0) :=
  ⟨rfl, C1_serialize_deserialize_roundtrip sample_world 1 { base := 4096, size := 1024, attr := 0 }
    500 24 0 rfl (by simp [mpi_mem_handle_t.wf]) (by decide)⟩

/-! ## Put against a handle without write access -/

/-- C4: when the flags of the remote handle differ from `NA_MEM_READWRITE`, `na_mpi_put` returns
`NA_FAIL`, leaves the request output as it was, and changes the state only by logging the
error: no external call is made (the trace gains no other event and no answer of the library is
consumed), and no request is allocated. -/
theorem C4_put_without_write_access (NA_MEM_READWRITE : Nat) (local_mem_handle : Nat)
    (local_offset : Int) (remote_mem_handle : Nat) (remote_offset : Int) (length : Nat)
    (remote_addr : Nat) (request : Nat) (w : World) (rh : mpi_mem_handle_t)
    (hrh : w.handles remote_mem_handle = some rh) (hattr : rh.attr ≠ NA_MEM_READWRITE) :
    na_mpi_put NA_MEM_READWRITE local_mem_handle local_offset remote_mem_handle remote_offset
        length remote_addr request w
      = some ((NA_FAIL, request),
          { w with trace := w.trace ++
              [Event.NA_ERROR "Registered memory requires write permission"] }) := by
  simp [na_mpi_put, hrh, hattr, NA_ERROR_DEFAULT, World.log]

/-- C4 at the sample state: a put of 16 bytes to the read-only descriptor at pointer 2, with
`NA_MEM_READWRITE = 0`. -/
theorem C4_put_without_write_access_witness :
    sample_world.handles 2 = some { base := 8192, size := 1024, attr := 1 } ∧
    na_mpi_put 0 1 0 2 0 16 3 0 sample_world
      = some ((NA_FAIL, 0),
          { sample_world with trace := sample_world.trace ++
              [Event.NA_ERROR "Registered memory requires write permission"] }) :=
  ⟨rfl, C4_put_without_write_access 0 1 0 2 0 16 3 0 sample_world
    { base := 8192, size := 1024, attr := 1 } rfl (by decide)⟩

/-! ## Wait -/

theorem World.complete_trace (w : World) (h : Option Nat) (data : List Nat) :
    (w.complete h data).trace = w.trace ∧ (w.complete h data).tick = w.tick ∧
      (w.complete h data).oracle = w.oracle := by
  unfold World.complete
  cases h with
  | none => exact ⟨rfl, rfl, rfl⟩
  | some k =>
    dsimp only
    cases w.posted.lookup k with
    | none => exact ⟨rfl, rfl, rfl⟩
    | some e =>
      obtain ⟨tgt, count⟩ := e
      cases tgt with
      | var => exact ⟨rfl, rfl, rfl⟩
      | mem a => exact ⟨rfl, rfl, rfl⟩
      | ack q =>
        dsimp only
        cases w.reqs q <;> exact ⟨rfl, rfl, rfl⟩

theorem World.complete_reqs (w : World) (h : Option Nat) (data : List Nat) (p : Nat)
    (r : mpi_req_t) (hr : w.reqs p = some r) :
    ∃ r2, (w.complete h data).reqs p = some r2 ∧ r2.type = r.type ∧ r2.request = r.request ∧
      r2.ack_request = r.ack_request := by
  unfold World.complete
  cases h with
  | none => exact ⟨r, hr, rfl, rfl, rfl⟩
  | some k =>
    dsimp only
    cases w.posted.lookup k with
    | none => exact ⟨r, hr, rfl, rfl, rfl⟩
    | some e =>
      obtain ⟨tgt, count⟩ := e
      cases tgt with
      | var => exact ⟨r, hr, rfl, rfl, rfl⟩
      | mem a => exact ⟨r, hr, rfl, rfl, rfl⟩
      | ack q =>
        dsimp only
        cases hq : w.reqs q with
        | none => exact ⟨r, hr, rfl, rfl, rfl⟩
        | some rq =>
          dsimp only
          by_cases e : p = q
          · subst e
            rw [hr] at hq
            cases hq
            exact ⟨_, Function.update_same _ _ _, rfl, rfl, rfl⟩
          · exact ⟨r, by rw [Function.update_noteq e]; exact hr, rfl, rfl, rfl⟩

/-- A successful `MPI_Wait` on a field of an allocated request object: the object stays
allocated with the same kind, the field becomes `MPI_REQUEST_NULL`, the other field is kept. -/
theorem MPI_Wait_success (p : Nat) (f : ReqField) (w : World) (r : mpi_req_t)
    (hr : w.reqs p = some r) (hret : (w.oracle w.tick).ret = MPI_SUCCESS) :
    ∃ w1 r1, MPI_Wait p f w = some ((MPI_SUCCESS, (w.oracle w.tick).status), w1) ∧
      w1.reqs p = some r1 ∧ r1.type = r.type ∧
      (f = ReqField.primary → r1.ack_request = r.ack_request) ∧
      w1.trace = w.trace ++ [Event.MPI_Wait (r.field f)] ∧ w1.tick = w.tick + 1 ∧
      w1.oracle = w.oracle := by
  obtain ⟨r2, h2, ht, hq, ha⟩ :=
    World.complete_reqs (w.step (Event.MPI_Wait (r.field f))) (r.field f)
      (w.oracle w.tick).data p r hr
  obtain ⟨c1, c2, c3⟩ :=
    World.complete_trace (w.step (Event.MPI_Wait (r.field f))) (r.field f) (w.oracle w.tick).data
  refine ⟨{ (w.step (Event.MPI_Wait (r.field f))).complete (r.field f) (w.oracle w.tick).data with
    reqs := Function.update
      ((w.step (Event.MPI_Wait (r.field f))).complete (r.field f) (w.oracle w.tick).data).reqs p
      (some (r2.setField f none)) }, r2.setField f none, ?_, ?_, ?_, ?_, ?_, ?_, ?_⟩
  · simp only [MPI_Wait, hr, World.reply, hret, if_true, h2]
  · exact Function.update_same _ _ _
  · cases f <;> exact ht
  · intro hf; subst hf; exact ha
  · exact c1
  · exact c2
  · exact c3

/-- A failed `MPI_Wait` on a field of an allocated request object changes only the outside. -/
theorem MPI_Wait_failure (p : Nat) (f : ReqField) (w : World) (r : mpi_req_t)
    (hr : w.reqs p = some r) (hret : (w.oracle w.tick).ret ≠ MPI_SUCCESS) :
    MPI_Wait p f w
      = some (((w.oracle w.tick).ret, (w.oracle w.tick).status),
          w.step (Event.MPI_Wait (r.field f))) := by
  simp only [MPI_Wait, hr, World.reply, hret, if_false]

/-- A successful `MPI_Test` that reports completion, on the primary field of an allocated
request object. -/
theorem MPI_Test_complete (p : Nat) (w : World) (r : mpi_req_t)
    (hr : w.reqs p = some r) (hret : (w.oracle w.tick).ret = MPI_SUCCESS)
    (hflag : (w.oracle w.tick).flag ≠ 0) :
    ∃ w1 r1, MPI_Test p ReqField.primary w
        = some ((MPI_SUCCESS, (w.oracle w.tick).flag, (w.oracle w.tick).status), w1) ∧
      w1.reqs p = some r1 ∧ r1.type = r.type ∧ r1.ack_request = r.ack_request ∧
      w1.trace = w.trace ++ [Event.MPI_Test r.request] ∧ w1.tick = w.tick + 1 ∧
      w1.oracle = w.oracle := by
  obtain ⟨r2, h2, ht, hq, ha⟩ :=
    World.complete_reqs (w.step (Event.MPI_Test r.request)) r.request
      (w.oracle w.tick).data p r hr
  obtain ⟨c1, c2, c3⟩ :=
    World.complete_trace (w.step (Event.MPI_Test r.request)) r.request (w.oracle w.tick).data
  refine ⟨{ (w.step (Event.MPI_Test r.request)).complete r.request (w.oracle w.tick).data with
    reqs := Function.update
      ((w.step (Event.MPI_Test r.request)).complete r.request (w.oracle w.tick).data).reqs p
      (some (r2.setField ReqField.primary none)) },
    r2.setField ReqField.primary none, ?_, ?_, ht, ha, c1, c2, c3⟩
  · simp only [MPI_Test, hr, World.reply, hret, hflag, mpi_req_t.field, ne_eq, not_false_eq_true,
      and_self, if_true, h2]
  · exact Function.update_same _ _ _

theorem free_req_allocated (p : Nat) (w : World) (r : mpi_req_t) (hp : p ≠ NULL)
    (hr : w.reqs p = some r) :
    free_req p w
      = some { w with reqs := Function.update w.reqs p none, trace := w.trace ++ [Event.free p] } := by
  simp [free_req, hp, hr]

/-- The tail of `na_mpi_wait` on an allocated request with a status to fill: the status is filled
whatever happens next, and a success return has released the request object, once. -/
theorem na_mpi_wait_completed_spec (p : Nat) (s : na_status_t) (mpi_status : MPI_Status)
    (w : World) (r : mpi_req_t) (hp : p ≠ NULL) (hr : w.reqs p = some r) :
    ∃ ret w1, na_mpi_wait_completed p (StatusArg.ptr s) mpi_status w
        = some ((ret, StatusArg.ptr
            { completed := true
              count := if r.type = MPI_RECV_OP then toSize mpi_status.count else 0 }), w1) ∧
      (ret = NA_SUCCESS → w1.reqs p = none ∧
        ∃ evs, w1.trace = w.trace ++ evs ∧ evs.count (Event.free p) = 1) := by
  have hst : (if r.type = MPI_RECV_OP then
        (StatusArg.ptr s).setDone (toSize (MPI_Get_count mpi_status))
      else (StatusArg.ptr s).setDone 0)
      = StatusArg.ptr { completed := true
                        count := if r.type = MPI_RECV_OP then toSize mpi_status.count else 0 } := by
    split_ifs <;> rfl
  cases hack : r.ack_request with
  | none =>
    refine ⟨NA_SUCCESS,
      { w with reqs := Function.update w.reqs p none, trace := w.trace ++ [Event.free p] },
      ?_, fun _ => ⟨?_, [Event.free p], rfl, ?_⟩⟩
    · simp only [na_mpi_wait_completed, hr, Option.bind_eq_bind, Option.some_bind, hack, ne_eq,
        not_true_eq_false, if_false, free_req_allocated p w r hp hr, hst, Option.pure_def]
    · exact Function.update_same _ _ _
    · simp
  | some k =>
    by_cases hret : (w.oracle w.tick).ret = MPI_SUCCESS
    · obtain ⟨w1, r1, hw, hr1, _, _, htr, _, _⟩ := MPI_Wait_success p ReqField.ack w r hr hret
      refine ⟨NA_SUCCESS,
        { w1 with reqs := Function.update w1.reqs p none, trace := w1.trace ++ [Event.free p] },
        ?_, fun _ => ⟨?_, [Event.MPI_Wait (r.field ReqField.ack), Event.free p], ?_, ?_⟩⟩
      · simp only [na_mpi_wait_completed, hr, Option.bind_eq_bind, Option.some_bind, hack, ne_eq,
          reduceCtorEq, not_false_eq_true, if_true, hw, not_true_eq_false, if_false,
          free_req_allocated p w1 r1 hp hr1, hst, Option.pure_def]
      · exact Function.update_same _ _ _
      · simp [htr]
      · simp
    · refine ⟨NA_FAIL,
        NA_ERROR_DEFAULT "MPI_Wait() failed" (w.step (Event.MPI_Wait (r.field ReqField.ack))),
        ?_, fun h => by cases h⟩
      simp only [na_mpi_wait_completed, hr, Option.bind_eq_bind, Option.some_bind, hack, ne_eq,
        reduceCtorEq, not_false_eq_true, if_true, MPI_Wait_failure p ReqField.ack w r hr hret,
        hret, hst, Option.pure_def]

/-- C5, the code at a failing input: a blocking wait on the request of an emulated put whose
payload send completes and whose wait for the acknowledgement fails. `na_mpi_wait` returns
`NA_FAIL` and the status says `completed = true`, although the acknowledgement request has not
completed: it is still in the request object and its receive is still posted. -/
theorem C5_wait_completed_without_ack :
    ∃ w1, na_mpi_wait 5 1 (StatusArg.ptr { completed := false, count := 0 }) sample_world_put_issued
        = some ((NA_FAIL, StatusArg.ptr { completed := true, count := 0 }), w1) ∧
      (w1.reqs 5).map (fun r => r.ack_request) = some (some 41) ∧
      w1.posted.lookup 41 = some (RecvTarget.ack 5, 1) ∧
      w1.trace = [Event.MPI_Wait (some 40), Event.MPI_Wait (some 41),
        Event.NA_ERROR "MPI_Wait() failed"] :=
  ⟨_, rfl, rfl, rfl, rfl⟩

/-- The tail of `na_mpi_wait` on an allocated request with a status to fill, in full: the result
is success exactly when there is no acknowledgement request or the wait for it succeeds; the
status is filled in both cases; the calls made are the wait for the acknowledgement, if there is
one, followed by the release of the request object on success and the error report on
failure. -/
theorem na_mpi_wait_completed_exact (p : Nat) (s : na_status_t) (mpi_status : MPI_Status)
    (w : World) (r : mpi_req_t) (hp : p ≠ NULL) (hr : w.reqs p = some r) :
    ∃ w1, na_mpi_wait_completed p (StatusArg.ptr s) mpi_status w
        = some ((if r.ack_request = none ∨ (w.oracle w.tick).ret = MPI_SUCCESS then NA_SUCCESS
              else NA_FAIL,
            StatusArg.ptr
              { completed := true
                count := if r.type = MPI_RECV_OP then toSize mpi_status.count else 0 }), w1) ∧
      w1.trace = w.trace ++
        ((if r.ack_request = none then [] else [Event.MPI_Wait r.ack_request]) ++
          (if r.ack_request = none ∨ (w.oracle w.tick).ret = MPI_SUCCESS then [Event.free p]
            else [Event.NA_ERROR "MPI_Wait() failed"])) ∧
      (r.ack_request = none ∨ (w.oracle w.tick).ret = MPI_SUCCESS → w1.reqs p = none) ∧
      (¬ (r.ack_request = none ∨ (w.oracle w.tick).ret = MPI_SUCCESS) →
        ∃ r1, w1.reqs p = some r1 ∧ r1.type = r.type ∧ r1.ack_request = r.ack_request) := by
  have hst : (if r.type = MPI_RECV_OP then
        (StatusArg.ptr s).setDone (toSize (MPI_Get_count mpi_status))
      else (StatusArg.ptr s).setDone 0)
      = StatusArg.ptr { completed := true
                        count := if r.type = MPI_RECV_OP then toSize mpi_status.count else 0 } := by
    split_ifs <;> rfl
  cases hack : r.ack_request with
  | none =>
    refine ⟨{ w with reqs := Function.update w.reqs p none, trace := w.trace ++ [Event.free p] },
      ?_, ?_, fun _ => Function.update_same _ _ _, fun h => absurd (Or.inl rfl) h⟩
    · simp only [na_mpi_wait_completed, hr, Option.bind_eq_bind, Option.some_bind, hack, ne_eq,
        not_true_eq_false, if_false, free_req_allocated p w r hp hr, hst, Option.pure_def,
        true_or, if_true]
    · simp
  | some k =>
    by_cases hret : (w.oracle w.tick).ret = MPI_SUCCESS
    · obtain ⟨w1, r1, hw, hr1, _, _, htr, _, _⟩ := MPI_Wait_success p ReqField.ack w r hr hret
      refine ⟨{ w1 with reqs := Function.update w1.reqs p none,
                        trace := w1.trace ++ [Event.free p] },
        ?_, ?_, fun _ => Function.update_same _ _ _, fun h => absurd (Or.inr hret) h⟩
      · simp only [na_mpi_wait_completed, hr, Option.bind_eq_bind, Option.some_bind, hack, ne_eq,
          reduceCtorEq, not_false_eq_true, if_true, hw, not_true_eq_false, if_false,
          free_req_allocated p w1 r1 hp hr1, hst, Option.pure_def, hret, or_true]
      · simp [htr, hret, mpi_req_t.field, hack]
    · refine ⟨NA_ERROR_DEFAULT "MPI_Wait() failed"
          (w.step (Event.MPI_Wait (r.field ReqField.ack))),
        ?_, ?_, fun h => ?_, fun _ => ⟨r, hr, rfl, hack⟩⟩
      · simp only [na_mpi_wait_completed, hr, Option.bind_eq_bind, Option.some_bind, hack, ne_eq,
          reduceCtorEq, not_false_eq_true, if_true, MPI_Wait_failure p ReqField.ack w r hr hret,
          hret, hst, Option.pure_def, or_self, if_false]
      · simp [NA_ERROR_DEFAULT, World.log, World.step, hret, mpi_req_t.field, hack]
      · rcases h with h | h
        · cases h
        · exact absurd h hret

/-- C6: for a non-null request whose primary transfer completes inside `na_mpi_wait` (timeout 0
and the test succeeds with its flag set, or timeout non-zero and the blocking wait succeeds) and
a status that is neither null nor ignored: the status reports `completed = true` and a count that
is the byte count of the completed receive for a `MPI_RECV_OP` request and 0 for a
`MPI_SEND_OP` request. `na_mpi_wait` returns success exactly when the request carries no
acknowledgement request or the wait for the acknowledgement succeeds, and then the request
object is no longer allocated and has been released by exactly one `free`, the last call made;
otherwise it returns failure, nothing is released and the request object is still allocated. The
calls made are the test or wait of the primary request, then the wait of the acknowledgement
request if there is one, then the release or the error report. -/
theorem C6_wait_primary_completes (request timeout : Nat) (s : na_status_t) (w : World)
    (r : mpi_req_t) (hp : request ≠ NULL) (hr : w.reqs request = some r)
    (hdone : (timeout = 0 ∧ (w.oracle w.tick).ret = MPI_SUCCESS ∧ (w.oracle w.tick).flag ≠ 0) ∨
      (timeout ≠ 0 ∧ (w.oracle w.tick).ret = MPI_SUCCESS)) :
    ∃ w1, na_mpi_wait request timeout (StatusArg.ptr s) w
        = some ((if r.ack_request = none ∨ (w.oracle (w.tick + 1)).ret = MPI_SUCCESS
              then NA_SUCCESS else NA_FAIL,
            StatusArg.ptr
              { completed := true
                count := if r.type = MPI_RECV_OP then
                    toSize (MPI_Get_count (w.oracle w.tick).status)
                  else 0 }), w1) ∧
      w1.trace = w.trace ++
        ([if timeout = 0 then Event.MPI_Test r.request else Event.MPI_Wait r.request] ++
          (if r.ack_request = none then [] else [Event.MPI_Wait r.ack_request]) ++
          (if r.ack_request = none ∨ (w.oracle (w.tick + 1)).ret = MPI_SUCCESS
            then [Event.free request] else [Event.NA_ERROR "MPI_Wait() failed"])) ∧
      (r.ack_request = none ∨ (w.oracle (w.tick + 1)).ret = MPI_SUCCESS →
        w1.reqs request = none) ∧
      (¬ (r.ack_request = none ∨ (w.oracle (w.tick + 1)).ret = MPI_SUCCESS) →
        ∃ r1, w1.reqs request = some r1 ∧ r1.type = r.type ∧
          r1.ack_request = r.ack_request) := by
  rcases hdone with ⟨ht, hret, hflag⟩ | ⟨ht, hret⟩
  · obtain ⟨w1, r1, hw, hr1, hty, hack, htr, htick, horacle⟩ :=
      MPI_Test_complete request w r hr hret hflag
    obtain ⟨w2, h2, htr2, hs2, hf2⟩ :=
      na_mpi_wait_completed_exact request s (w.oracle w.tick).status w1 r1 hp hr1
    rw [hty, hack, horacle, htick] at h2
    rw [hack, horacle, htick, htr] at htr2
    rw [hack, horacle, htick] at hs2
    rw [hack, horacle, htick, hty] at hf2
    refine ⟨w2, ?_, ?_, hs2, hf2⟩
    · simp only [na_mpi_wait, hp, if_false, ht, if_true, hw, Option.bind_eq_bind,
        Option.some_bind, ne_eq, not_true_eq_false, hflag, h2, MPI_Get_count]
    · rw [htr2]; simp [ht]
  · obtain ⟨w1, r1, hw, hr1, hty, hack, htr, htick, horacle⟩ :=
      MPI_Wait_success request ReqField.primary w r hr hret
    have hack2 := hack rfl
    obtain ⟨w2, h2, htr2, hs2, hf2⟩ :=
      na_mpi_wait_completed_exact request s (w.oracle w.tick).status w1 r1 hp hr1
    rw [hty, hack2, horacle, htick] at h2
    rw [hack2, horacle, htick, htr] at htr2
    rw [hack2, horacle, htick] at hs2
    rw [hack2, horacle, htick, hty] at hf2
    refine ⟨w2, ?_, ?_, hs2, hf2⟩
    · simp only [na_mpi_wait, hp, if_false, ht, hw, Option.bind_eq_bind,
        Option.some_bind, ne_eq, not_true_eq_false, h2, MPI_Get_count]
    · rw [htr2]; simp [ht, mpi_req_t.field]

/-- C7: for a non-null request whose primary transfer is still incomplete (the test succeeds
with its flag clear), `na_mpi_wait` with timeout 0 returns success; a status that is neither
null nor ignored gets `completed = false` and keeps its count; the state changes only by the
call of `MPI_Test` on the primary request, so the request object is still allocated and
unchanged, its acknowledgement request included, and nothing is released. -/
theorem C7_wait_incomplete (request : Nat) (status : StatusArg) (w : World) (r : mpi_req_t)
    (hp : request ≠ NULL) (hr : w.reqs request = some r)
    (hret : (w.oracle w.tick).ret = MPI_SUCCESS) (hflag : (w.oracle w.tick).flag = 0) :
    na_mpi_wait request 0 status w
      = some ((NA_SUCCESS,
          match status with
          | StatusArg.ptr s => StatusArg.ptr { completed := false, count := s.count }
          | other => other),
          { w with trace := w.trace ++ [Event.MPI_Test r.request], tick := w.tick + 1 }) := by
  have e : MPI_Test request ReqField.primary w
      = some ((MPI_SUCCESS, 0, (w.oracle w.tick).status),
          { w with trace := w.trace ++ [Event.MPI_Test r.request], tick := w.tick + 1 }) := by
    simp [MPI_Test, hr, World.reply, hret, hflag, World.step, mpi_req_t.field]
  simp only [na_mpi_wait, hp, if_false, if_true, e, Option.bind_eq_bind, Option.some_bind, ne_eq,
    not_true_eq_false, Option.pure_def]
  cases status <;> rfl

/-- C6 at a sample state: a blocking wait on the request of a posted receive that completes with
five bytes. The call returns success with count 5, after the wait of the primary request and one
release of the request object. -/
theorem C6_wait_primary_completes_witness :
    (4 ≠ NULL) ∧
    sample_world_recv_posted.reqs 4
      = some { type := MPI_RECV_OP, request := some 40, ack := 0, ack_request := none } ∧
    (∃ w1, na_mpi_wait 4 1 (StatusArg.ptr { completed := false, count := 0 })
          sample_world_recv_posted
        = some ((NA_SUCCESS, StatusArg.ptr { completed := true, count := 5 }), w1) ∧
      w1.trace = [Event.MPI_Wait (some 40), Event.free 4] ∧
      w1.reqs 4 = none) :=
  ⟨by decide, rfl,
    match C6_wait_primary_completes 4 1 { completed := false, count := 0 }
      sample_world_recv_posted
      { type := MPI_RECV_OP, request := some 40, ack := 0, ack_request := none }
      (by decide) rfl (Or.inr ⟨by decide, rfl⟩) with
    | ⟨w1, h1, h2, h3, _⟩ => ⟨w1, h1, h2, h3 (Or.inl rfl)⟩⟩

/-- C7 at a sample state: a test of the request of a posted receive for which no message has
arrived. -/
theorem C7_wait_incomplete_witness :
    (4 ≠ NULL) ∧
    sample_world_recv_pending.reqs 4
      = some { type := MPI_RECV_OP, request := some 40, ack := 0, ack_request := none } ∧
    na_mpi_wait 4 0 (StatusArg.ptr { completed := true, count := 9 }) sample_world_recv_pending
      = some ((NA_SUCCESS, StatusArg.ptr { completed := false, count := 9 }),
          { sample_world_recv_pending with
            trace := sample_world_recv_pending.trace ++ [Event.MPI_Test (some 40)]
            tick := sample_world_recv_pending.tick + 1 }) :=
  ⟨by decide, rfl,
    C7_wait_incomplete 4 (StatusArg.ptr { completed := true, count := 9 })
      sample_world_recv_pending
      { type := MPI_RECV_OP, request := some 40, ack := 0, ack_request := none }
      (by decide) rfl rfl rfl⟩

/-! ## Unexpected receive -/

theorem toInt_of_lt (x : Nat) (h : x < 2 ^ 31) : toInt (x : Int) = (x : Int) := by
  unfold toInt wrapSigned
  norm_num at h ⊢
  split_ifs <;> omega

theorem toSize_of_nat (x : Nat) (h : x < 2 ^ 64) : toSize (x : Int) = x := by
  unfold toSize
  norm_num at h ⊢
  omega

/-- The size check of `na_mpi_recv_unexpected` failing: nothing happens but the probe and the
error report. -/
theorem na_mpi_recv_unexpected_too_small (buf buf_size : Nat) (actual_buf_size source : Option Nat)
    (tag : Option Int) (request : Nat) (w : World) (hbuf : buf ≠ NULL)
    (hret : (w.oracle w.tick).ret = MPI_SUCCESS) (hflag : (w.oracle w.tick).flag ≠ 0)
    (hsize : (w.oracle w.tick).status.count > toInt buf_size) :
    na_mpi_recv_unexpected buf buf_size actual_buf_size source tag request w
      = some ({ ret := NA_FAIL, actual_buf_size := actual_buf_size, source := source, tag := tag,
                request := request },
          { w with
            trace := w.trace ++ [Event.MPI_Iprobe Sel.any Sel.any w.server_remote_addr.comm,
              Event.NA_ERROR "Buffer too small to recv unexpected data"]
            tick := w.tick + 1 }) := by
  simp [na_mpi_recv_unexpected, hbuf, MPI_Iprobe, World.reply, hret, hflag, MPI_Get_count, hsize,
    NA_ERROR_DEFAULT, World.log, World.step]

/-- The success path of `na_mpi_recv_unexpected` with a non-null source output: the state after
the call. -/
theorem na_mpi_recv_unexpected_posted (buf buf_size : Nat) (actual_buf_size : Option Nat)
    (source0 : Nat) (tag : Option Int) (request : Nat) (w : World) (hbuf : buf ≠ NULL)
    (hret : (w.oracle w.tick).ret = MPI_SUCCESS) (hflag : (w.oracle w.tick).flag ≠ 0)
    (hsize : (w.oracle w.tick).status.count ≤ toInt buf_size)
    (hirecv : (w.oracle (w.tick + 1)).ret = MPI_SUCCESS) :
    na_mpi_recv_unexpected buf buf_size actual_buf_size (some source0) tag request w
      = some ({ ret := NA_SUCCESS
                actual_buf_size := actual_buf_size.map (fun _ => toSize (w.oracle w.tick).status.count)
                source := some (w.brk + 1)
                tag := tag.map (fun _ => (w.oracle w.tick).status.MPI_TAG)
                request := w.brk + 2 },
          { w with
            brk := w.brk + 2
            addrs := Function.update w.addrs (w.brk + 1)
              (some { comm := w.server_remote_addr.comm
                      rank := (w.oracle w.tick).status.MPI_SOURCE
                      is_reference := true
                      onesided_comm := w.server_remote_addr.onesided_comm })
            reqs := Function.update w.reqs (w.brk + 2)
              (some { type := MPI_RECV_OP, request := some (w.oracle (w.tick + 1)).request,
                      ack := 0, ack_request := none })
            posted := ((w.oracle (w.tick + 1)).request,
              (RecvTarget.mem buf, (w.oracle w.tick).status.count)) :: w.posted
            trace := w.trace ++ [Event.MPI_Iprobe Sel.any Sel.any w.server_remote_addr.comm,
              Event.malloc (w.brk + 1), Event.malloc (w.brk + 2),
              Event.MPI_Irecv (RecvTarget.mem buf) (w.oracle w.tick).status.count
                (w.oracle w.tick).status.MPI_SOURCE (w.oracle w.tick).status.MPI_TAG
                w.server_remote_addr.comm]
            tick := w.tick + 2 }) := by
  have hs : ¬ (w.oracle w.tick).status.count > toInt buf_size := not_lt.mpr hsize
  simp [na_mpi_recv_unexpected, hbuf, MPI_Iprobe, World.reply, hret, hflag, MPI_Get_count, hs,
    World.step, malloc_addr, malloc_req, malloc, set_req, MPI_Irecv, hirecv, mpi_req_t.setField]

theorem toInt_lt (x : Int) : toInt x < 2 ^ 31 := by
  unfold toInt wrapSigned
  norm_num
  split_ifs <;> omega

/-- The success path of `na_mpi_recv_unexpected` whatever the source output is: the call
succeeds. -/
theorem na_mpi_recv_unexpected_ret_success (buf buf_size : Nat) (actual_buf_size : Option Nat)
    (source : Option Nat) (tag : Option Int) (request : Nat) (w : World) (hbuf : buf ≠ NULL)
    (hret : (w.oracle w.tick).ret = MPI_SUCCESS) (hflag : (w.oracle w.tick).flag ≠ 0)
    (hsize : (w.oracle w.tick).status.count ≤ toInt buf_size)
    (hirecv : (w.oracle (w.tick + 1)).ret = MPI_SUCCESS) :
    ∃ out w1, na_mpi_recv_unexpected buf buf_size actual_buf_size source tag request w
        = some (out, w1) ∧ out.ret = NA_SUCCESS := by
  have hs : ¬ (w.oracle w.tick).status.count > toInt buf_size := not_lt.mpr hsize
  cases source with
  | some source0 =>
    exact ⟨_, _, na_mpi_recv_unexpected_posted buf buf_size actual_buf_size source0 tag request w
      hbuf hret hflag hsize hirecv, rfl⟩
  | none =>
    simp [na_mpi_recv_unexpected, hbuf, MPI_Iprobe, World.reply, hret, hflag, MPI_Get_count, hs,
      World.step, malloc_req, malloc, set_req, MPI_Irecv, hirecv, mpi_req_t.setField]

/-- C8, as stated, fails on the code: a message of 5 bytes is pending and the caller's buffer has
2^31 bytes, and `na_mpi_recv_unexpected` fails without posting a receive, because the buffer
size is converted to `int` before the comparison. -/
theorem C8_counterexample_large_buffer :
    (5 : Nat) ≤ 2147483648 ∧ sample_server.reply.ret = MPI_SUCCESS ∧
    sample_server.reply.flag ≠ 0 ∧ sample_server.reply.status.count = 5 ∧
    ∃ w1, na_mpi_recv_unexpected 600 2147483648 (some 0) (some 0) (some 0) 0 sample_server
        = some ({ ret := NA_FAIL, actual_buf_size := some 0, source := some 0, tag := some 0,
                  request := 0 }, w1) ∧
      w1.trace = [Event.MPI_Iprobe Sel.any Sel.any 20,
        Event.NA_ERROR "Buffer too small to recv unexpected data"] :=
  ⟨by decide, rfl, by decide, rfl, _, rfl, rfl⟩

/-- C8, amended: when a message of `c` bytes from source `s` with tag `t` is pending, `c` does
not exceed the caller's buffer size converted to `int`, and the receive is posted successfully,
`na_mpi_recv_unexpected` returns success, reports actual size `c` and tag `t` (through the
outputs that are not null), outputs a newly allocated address with the communicators of the
server address, rank `s` and `is_reference = true`, makes exactly one call of `MPI_Irecv`, for
`c` bytes from `s` with tag `t` on the primary communicator of the server address, and outputs a
request of kind `MPI_RECV_OP` without acknowledgement request. -/
theorem C8_recv_unexpected_success (buf buf_size : Nat) (actual_buf_size : Option Nat)
    (source0 : Nat) (tag : Option Int) (request : Nat) (w : World) (c : Nat) (s t : Int)
    (hbuf : buf ≠ NULL)
    (hret : (w.oracle w.tick).ret = MPI_SUCCESS) (hflag : (w.oracle w.tick).flag ≠ 0)
    (hstatus : (w.oracle w.tick).status = { MPI_SOURCE := s, MPI_TAG := t, count := c })
    (hfit : (c : Int) ≤ toInt buf_size)
    (hirecv : (w.oracle (w.tick + 1)).ret = MPI_SUCCESS) :
    ∃ out w1 q k, na_mpi_recv_unexpected buf buf_size actual_buf_size (some source0) tag request w
        = some (out, w1) ∧
      out.ret = NA_SUCCESS ∧
      out.actual_buf_size = actual_buf_size.map (fun _ => c) ∧
      out.tag = tag.map (fun _ => t) ∧
      out.source = some q ∧
      w1.addrs q = some { comm := w.server_remote_addr.comm, rank := s, is_reference := true,
                          onesided_comm := w.server_remote_addr.onesided_comm } ∧
      w1.reqs out.request
        = some { type := MPI_RECV_OP, request := some k, ack := 0, ack_request := none } ∧
      w1.trace = w.trace ++ [Event.MPI_Iprobe Sel.any Sel.any w.server_remote_addr.comm,
        Event.malloc q, Event.malloc out.request,
        Event.MPI_Irecv (RecvTarget.mem buf) c s t w.server_remote_addr.comm] ∧
      w1.posted = (k, (RecvTarget.mem buf, (c : Int))) :: w.posted ∧
      w1.server_remote_addr = w.server_remote_addr := by
  have hc : (w.oracle w.tick).status.count = (c : Int) := by rw [hstatus]
  have hs : (w.oracle w.tick).status.MPI_SOURCE = s := by rw [hstatus]
  have ht : (w.oracle w.tick).status.MPI_TAG = t := by rw [hstatus]
  have hlt : c < 2 ^ 64 := by
    have h1 := toInt_lt (buf_size : Int)
    have h2 : (c : Int) < 2 ^ 31 := lt_of_le_of_lt hfit h1
    have h3 : c < 2 ^ 31 := by exact_mod_cast h2
    exact lt_trans h3 (by norm_num)
  refine ⟨_, _, w.brk + 1, (w.oracle (w.tick + 1)).request,
    na_mpi_recv_unexpected_posted buf buf_size actual_buf_size source0 tag request w hbuf hret
      hflag (by rw [hc]; exact hfit) hirecv, rfl, ?_, ?_, rfl, ?_, ?_, ?_, ?_, rfl⟩
  · simp only [hc, toSize_of_nat c hlt]
  · simp only [ht]
  · simp only [hs, Function.update_same]
  · simp only [Function.update_same]
  · simp only [hc, hs, ht]
  · simp only [hc]

/-- C8, amended, at a sample state: a message of five bytes from rank 3 with tag 7, a buffer of
4096 bytes at address 600. -/
theorem C8_recv_unexpected_success_witness :
    (600 ≠ NULL) ∧ (sample_server.oracle sample_server.tick).ret = MPI_SUCCESS ∧
    (sample_server.oracle sample_server.tick).flag ≠ 0 ∧
    ((5 : Nat) : Int) ≤ toInt (4096 : Nat) ∧
    (∃ out w1 q k, na_mpi_recv_unexpected 600 4096 (some 0) (some 0) (some 0) 0 sample_server
        = some (out, w1) ∧
      out.ret = NA_SUCCESS ∧
      out.actual_buf_size = (some 0).map (fun _ => 5) ∧
      out.tag = (some 0).map (fun _ => 7) ∧
      out.source = some q ∧
      w1.addrs q = some { comm := 20, rank := 3, is_reference := true, onesided_comm := 21 } ∧
      w1.reqs out.request
        = some { type := MPI_RECV_OP, request := some k, ack := 0, ack_request := none } ∧
      w1.trace = sample_server.trace ++ [Event.MPI_Iprobe Sel.any Sel.any 20,
        Event.malloc q, Event.malloc out.request,
        Event.MPI_Irecv (RecvTarget.mem 600) 5 3 7 20] ∧
      w1.posted = (k, (RecvTarget.mem 600, (5 : Int))) :: sample_server.posted ∧
      w1.server_remote_addr = sample_server.server_remote_addr) :=
  ⟨by decide, rfl, by decide, by decide,
    C8_recv_unexpected_success 600 4096 (some 0) 0 (some 0) 0 sample_server 5 3 7
      (by decide) rfl (by decide) rfl (by decide) rfl⟩

/-- C9, as stated, fails on the code: the caller's buffer has 2^32 + 100 bytes and the pending
message 200 bytes, which fits, and `na_mpi_recv_unexpected` fails, because the buffer size is
converted to `int` (here 100) before the comparison. -/
theorem C9_counterexample_truncated_size :
    ¬ ((200 : Nat) > 4294967396) ∧ sample_server_200.reply.ret = MPI_SUCCESS ∧
    sample_server_200.reply.flag ≠ 0 ∧ sample_server_200.reply.status.count = 200 ∧
    ∃ out w1, na_mpi_recv_unexpected 600 4294967396 (some 0) (some 0) (some 0) 0 sample_server_200
        = some (out, w1) ∧ out.ret = NA_FAIL :=
  ⟨by decide, rfl, by decide, rfl, _, _, rfl, rfl⟩

/-- C9, amended: for every caller buffer size `b` and every pending message of `c` bytes (found
by a successful probe, with a non-null buffer, the receive being posted successfully when it is
posted), `na_mpi_recv_unexpected` fails if and only if `c` exceeds `b` converted to `int`, which
is `c > b` whenever `b <= 2^31 - 1`; when it fails it has made no call but the probe (no receive
is posted, nothing is allocated) and every output parameter holds what it held before. -/
theorem C9_recv_unexpected_fails_iff (buf buf_size : Nat) (actual_buf_size source : Option Nat)
    (tag : Option Int) (request : Nat) (w : World) (c : Nat) (hbuf : buf ≠ NULL)
    (hret : (w.oracle w.tick).ret = MPI_SUCCESS) (hflag : (w.oracle w.tick).flag ≠ 0)
    (hcount : (w.oracle w.tick).status.count = (c : Int))
    (hirecv : (w.oracle (w.tick + 1)).ret = MPI_SUCCESS) :
    ∃ out w1, na_mpi_recv_unexpected buf buf_size actual_buf_size source tag request w
        = some (out, w1) ∧
      (out.ret = NA_FAIL ↔ (c : Int) > toInt buf_size) ∧
      (buf_size ≤ 2 ^ 31 - 1 → (out.ret = NA_FAIL ↔ c > buf_size)) ∧
      (out.ret = NA_FAIL →
        out.actual_buf_size = actual_buf_size ∧ out.source = source ∧ out.tag = tag ∧
        out.request = request ∧
        w1 = { w with
          trace := w.trace ++ [Event.MPI_Iprobe Sel.any Sel.any w.server_remote_addr.comm,
            Event.NA_ERROR "Buffer too small to recv unexpected data"]
          tick := w.tick + 1 }) := by
  have hsmall : buf_size ≤ 2 ^ 31 - 1 → toInt (buf_size : Int) = (buf_size : Int) := by
    intro hb
    exact toInt_of_lt buf_size (by norm_num at hb ⊢; omega)
  by_cases hsize : (c : Int) > toInt buf_size
  · refine ⟨_, _, na_mpi_recv_unexpected_too_small buf buf_size actual_buf_size source tag
      request w hbuf hret hflag (by rw [hcount]; exact hsize), ?_, ?_, ?_⟩
    · exact ⟨fun _ => hsize, fun _ => rfl⟩
    · intro hb
      rw [hsmall hb] at hsize
      exact ⟨fun _ => by exact_mod_cast hsize, fun _ => rfl⟩
    · intro _
      exact ⟨rfl, rfl, rfl, rfl, rfl⟩
  · obtain ⟨out, w1, h, hok⟩ := na_mpi_recv_unexpected_ret_success buf buf_size actual_buf_size
      source tag request w hbuf hret hflag (by rw [hcount]; exact not_lt.mp hsize) hirecv
    refine ⟨out, w1, h, ?_, ?_, ?_⟩
    · rw [hok]
      exact ⟨fun h => (by cases h), fun h => absurd h hsize⟩
    · intro hb
      rw [hok]
      rw [hsmall hb] at hsize
      exact ⟨fun h => (by cases h), fun h => absurd (by exact_mod_cast h) hsize⟩
    · rw [hok]
      intro h
      cases h

/-- C9, amended, at a sample state: a message of five bytes and a buffer of four bytes. -/
theorem C9_recv_unexpected_fails_iff_witness :
    (600 ≠ NULL) ∧ (sample_server.oracle sample_server.tick).ret = MPI_SUCCESS ∧
    (sample_server.oracle sample_server.tick).flag ≠ 0 ∧
    (∃ out w1, na_mpi_recv_unexpected 600 4 (some 0) (some 0) (some 0) 0 sample_server
        = some (out, w1) ∧
      (out.ret = NA_FAIL ↔ ((5 : Nat) : Int) > toInt (4 : Nat)) ∧
      (4 ≤ 2 ^ 31 - 1 → (out.ret = NA_FAIL ↔ 5 > 4)) ∧
      (out.ret = NA_FAIL →
        out.actual_buf_size = some 0 ∧ out.source = some 0 ∧ out.tag = some 0 ∧
        out.request = 0 ∧
        w1 = { sample_server with
          trace := sample_server.trace ++ [Event.MPI_Iprobe Sel.any Sel.any 20,
            Event.NA_ERROR "Buffer too small to recv unexpected data"]
          tick := sample_server.tick + 1 })) :=
  ⟨by decide, rfl, by decide,
    C9_recv_unexpected_fails_iff 600 4 (some 0) (some 0) (some 0) 0 sample_server 5
      (by decide) rfl (by decide) rfl rfl⟩

/-- C10, as stated, fails on the code: a message of 5000 bytes is pending and the caller's
buffer has 8192 bytes, and `na_mpi_recv_unexpected` succeeds and posts a receive of 5000 bytes,
more than `NA_MPI_UNEXPECTED_SIZE`. -/
theorem C10_counterexample_oversize_posted :
    sample_server_oversize.reply.status.count = 5000 ∧
    (5000 : Int) > NA_MPI_UNEXPECTED_SIZE ∧
    ∃ out w1, na_mpi_recv_unexpected 600 8192 (some 0) (some 0) (some 0) 0 sample_server_oversize
        = some (out, w1) ∧ out.ret = NA_SUCCESS ∧
      w1.trace = [Event.MPI_Iprobe Sel.any Sel.any 20, Event.malloc 4, Event.malloc 5,
        Event.MPI_Irecv (RecvTarget.mem 600) 5000 3 7 20] ∧
      w1.posted = [(40, (RecvTarget.mem 600, 5000))] :=
  ⟨rfl, by decide, _, _, rfl, rfl, rfl, rfl⟩

/-- C10, amended: for every pending message whose byte count exceeds 4096 and every caller
buffer size of at most 4096 bytes (the size `na_mpi_get_unexpected_size` reports),
`na_mpi_recv_unexpected` fails without posting a receive: the only call is the probe, and the
set of posted receives is unchanged. -/
theorem C10_recv_unexpected_oversize (buf buf_size : Nat) (actual_buf_size source : Option Nat)
    (tag : Option Int) (request : Nat) (w : World) (hbuf : buf ≠ NULL)
    (hret : (w.oracle w.tick).ret = MPI_SUCCESS) (hflag : (w.oracle w.tick).flag ≠ 0)
    (hcount : (w.oracle w.tick).status.count > (NA_MPI_UNEXPECTED_SIZE : Int))
    (hb : buf_size ≤ na_mpi_get_unexpected_size w) :
    ∃ out w1, na_mpi_recv_unexpected buf buf_size actual_buf_size source tag request w
        = some (out, w1) ∧ out.ret = NA_FAIL ∧
      w1.trace = w.trace ++ [Event.MPI_Iprobe Sel.any Sel.any w.server_remote_addr.comm,
        Event.NA_ERROR "Buffer too small to recv unexpected data"] ∧
      w1.posted = w.posted := by
  have hb2 : buf_size ≤ 4096 := hb
  have hc2 : (w.oracle w.tick).status.count > 4096 := hcount
  have e : toInt (buf_size : Int) = (buf_size : Int) :=
    toInt_of_lt buf_size (lt_of_le_of_lt hb2 (by norm_num))
  refine ⟨_, _, na_mpi_recv_unexpected_too_small buf buf_size actual_buf_size source tag
    request w hbuf hret hflag ?_, rfl, rfl, rfl⟩
  rw [e]
  omega

/-- C10, amended, at a sample state: a message of 5000 bytes and a buffer of 4096 bytes. -/
theorem C10_recv_unexpected_oversize_witness :
    (600 ≠ NULL) ∧ (sample_server_oversize.oracle sample_server_oversize.tick).ret = MPI_SUCCESS ∧
    (sample_server_oversize.oracle sample_server_oversize.tick).flag ≠ 0 ∧
    (sample_server_oversize.oracle sample_server_oversize.tick).status.count
      > (NA_MPI_UNEXPECTED_SIZE : Int) ∧
    4096 ≤ na_mpi_get_unexpected_size sample_server_oversize ∧
    (∃ out w1, na_mpi_recv_unexpected 600 4096 (some 0) (some 0) (some 0) 0
          sample_server_oversize
        = some (out, w1) ∧ out.ret = NA_FAIL ∧
      w1.trace = sample_server_oversize.trace ++ [Event.MPI_Iprobe Sel.any Sel.any 20,
        Event.NA_ERROR "Buffer too small to recv unexpected data"] ∧
      w1.posted = sample_server_oversize.posted) :=
  ⟨by decide, rfl, by decide, by decide, by decide,
    C10_recv_unexpected_oversize 600 4096 (some 0) (some 0) (some 0) 0 sample_server_oversize
      (by decide) rfl (by decide) (by decide) (by decide)⟩

/-! ## Emulated one-sided transfers, end to end -/

theorem toAint_range (x : Int) : -(2 ^ 63 : Int) ≤ toAint x ∧ toAint x < (2 ^ 63 : Int) := by
  unfold toAint wrapSigned
  norm_num
  split_ifs <;> omega

theorem count_range (n : Nat) (h : n ≤ 2 ^ 31 - 1) :
    -(2 ^ 31 : Int) ≤ (n : Int) ∧ (n : Int) < (2 ^ 31 : Int) := by
  norm_num at h ⊢
  omega

theorem toAint_of_range (x : Int) (h1 : -(2 ^ 63 : Int) ≤ x) (h2 : x < (2 ^ 63 : Int)) :
    toAint x = x := by
  unfold toAint wrapSigned
  norm_num at h1 h2 ⊢
  split_ifs <;> omega

/-- Pointer arithmetic with an offset converted to `MPI_Aint` is pointer arithmetic with the
offset itself: both are taken modulo 2^64. -/
theorem ptr_add_toAint (p : Nat) (x : Int) : ptr_add p (toAint x) = ptr_add p x := by
  unfold ptr_add toAint wrapSigned
  norm_num
  split_ifs <;> congr 1 <;> omega

theorem ptr_add_of_lt (p x : Nat) (h : p + x < 2 ^ 64) : ptr_add p (x : Int) = p + x := by
  unfold ptr_add
  norm_num at h ⊢
  omega

theorem onesided_info_image_length (r : mpi_onesided_info_t) :
    r.image.length = sizeof_mpi_onesided_info_t := by
  simp [mpi_onesided_info_t.image, toLESigned, toLE_length, sizeof_mpi_onesided_info_t]

theorem onesided_info_ofImage_image (r : mpi_onesided_info_t) (hb : r.base < 2 ^ 64)
    (hd1 : -(2 ^ 63 : Int) ≤ r.disp) (hd2 : r.disp < (2 ^ 63 : Int))
    (hc1 : -(2 ^ 31 : Int) ≤ r.count) (hc2 : r.count < (2 ^ 31 : Int))
    (ho1 : -(2 ^ 31 : Int) ≤ r.op) (ho2 : r.op < (2 ^ 31 : Int)) :
    mpi_onesided_info_t.ofImage r.image = r := by
  have l1 : (toLE 8 r.base).length = 8 := toLE_length 8 r.base
  have l2 : (toLESigned 8 r.disp).length = 8 := toLE_length 8 _
  have l3 : (toLESigned 4 r.count).length = 4 := toLE_length 4 _
  have l4 : (toLESigned 4 r.op).length = 4 := toLE_length 4 _
  have t1 : (r.image).take 8 = toLE 8 r.base := List.take_left' l1
  have d1 : (r.image).drop 8
      = toLESigned 8 r.disp ++ (toLESigned 4 r.count ++ toLESigned 4 r.op) := List.drop_left' l1
  have t2 : ((r.image).drop 8).take 8 = toLESigned 8 r.disp := by
    rw [d1]; exact List.take_left' l2
  have d2 : (r.image).drop 16 = toLESigned 4 r.count ++ toLESigned 4 r.op := by
    have e : (r.image).drop 16 = ((r.image).drop 8).drop 8 := by rw [List.drop_drop]
    rw [e, d1]; exact List.drop_left' l2
  have t3 : ((r.image).drop 16).take 4 = toLESigned 4 r.count := by
    rw [d2]; exact List.take_left' l3
  have t4 : ((r.image).drop 20).take 4 = toLESigned 4 r.op := by
    have e : (r.image).drop 20 = ((r.image).drop 16).drop 4 := by rw [List.drop_drop]
    rw [e, d2, List.drop_left' l3]
    exact List.take_of_length_le (le_of_eq l4)
  unfold mpi_onesided_info_t.ofImage
  rw [t1, t2, t3, t4, fromLE_toLE_8 _ hb, fromLESigned_toLESigned_8 _ hd1 hd2,
    fromLESigned_toLESigned_4 _ hc1 hc2, fromLESigned_toLESigned_4 _ ho1 ho2]

/-- A successful `na_mpi_mem_register` at base `X`: the pointer it outputs is not null, the
handle map binds `X` to it, and it holds a descriptor with base `X`. -/
theorem na_mpi_mem_register_success (X size flags : Nat) (w0 w : World) (hp : Nat)
    (hreg : na_mpi_mem_register X size flags w0 = ((NA_SUCCESS, hp), w)) :
    hp ≠ NULL ∧ w.mem_handle_map.lookup X = some hp ∧
      w.handles hp = some { base := X, size := toAint size, attr := flags } ∧
      w.mem = w0.mem := by
  by_cases h1 : (w0.oracle w0.tick).flag = 0
  · simp [na_mpi_mem_register, malloc, hg_thread_mutex_lock, hg_hash_table_insert, World.reply,
      World.step, h1] at hreg
  · simp only [na_mpi_mem_register, malloc, hg_thread_mutex_lock, hg_hash_table_insert,
      World.reply, World.step, ne_eq, h1, not_false_eq_true, if_true, if_false, Prod.mk.injEq,
      true_and] at hreg
    obtain ⟨e1, e2⟩ := hreg
    subst e1 e2
    refine ⟨by simp [NULL], ?_, ?_, rfl⟩
    · simp [hg_thread_mutex_unlock, List.lookup]
    · simp [hg_thread_mutex_unlock]

/-- The state after `na_mpi_get` when its receive is posted successfully. -/
theorem na_mpi_get_posted (lhp : Nat) (l : Int) (rhp : Nat) (d : Int) (n ra request : Nat)
    (w : World) (lh rh : mpi_mem_handle_t) (a : mpi_addr_t)
    (hlh : w.handles lhp = some lh) (hrh : w.handles rhp = some rh) (hra : w.addrs ra = some a)
    (hirecv : (w.oracle (w.tick + 1)).ret = MPI_SUCCESS) :
    na_mpi_get lhp l rhp d n ra request w
      = some ((NA_SUCCESS, w.brk + 1),
          { w with
            brk := w.brk + 1
            reqs := Function.update w.reqs (w.brk + 1)
              (some { type := MPI_RECV_OP, request := some (w.oracle (w.tick + 1)).request,
                      ack := 0, ack_request := none })
            posted := ((w.oracle (w.tick + 1)).request,
              (RecvTarget.mem (ptr_add lh.base (toAint l)), toInt n)) :: w.posted
            trace := w.trace ++ [Event.malloc (w.brk + 1),
              Event.MPI_Send
                ({ base := rh.base, disp := toAint d, count := toInt n, op := MPI_ONESIDED_GET } :
                  mpi_onesided_info_t).image
                sizeof_mpi_onesided_info_t a.rank NA_MPI_ONESIDED_TAG a.onesided_comm,
              Event.MPI_Irecv (RecvTarget.mem (ptr_add lh.base (toAint l))) (toInt n) a.rank
                NA_MPI_ONESIDED_TAG a.onesided_comm]
            tick := w.tick + 2 }) := by
  simp [na_mpi_get, malloc_req, malloc, set_req, hlh, hrh, hra, MPI_Send, MPI_Irecv, World.step,
    World.reply, hirecv, mpi_req_t.setField]

/-- The state after one pass of the service that receives a get record for a registered base. -/
theorem na_mpi_onesided_service_iteration_get (sa : Nat) (w : World) (ta : mpi_addr_t)
    (r : mpi_onesided_info_t) (hp : Nat) (h : mpi_mem_handle_t)
    (hsa : w.addrs sa = some ta) (hret : (w.oracle w.tick).ret = MPI_SUCCESS)
    (hdata : (w.oracle w.tick).data = r.image)
    (hr : mpi_onesided_info_t.ofImage r.image = r) (hop : r.op = MPI_ONESIDED_GET)
    (hmap : w.mem_handle_map.lookup r.base = some hp) (hnn : hp ≠ NULL)
    (hh : w.handles hp = some h) :
    na_mpi_onesided_service_iteration sa w
      = some (false,
          { w with
            mem_map_mutex := false
            tick := w.tick + 2
            trace := w.trace ++ [Event.MPI_Recv RecvTarget.var sizeof_mpi_onesided_info_t Sel.any
                Sel.any ta.onesided_comm,
              Event.hg_thread_mutex_lock, Event.hg_hash_table_lookup r.base,
              Event.MPI_Send (readBytes w.mem (ptr_add h.base r.disp) r.count.toNat) r.count
                (w.oracle w.tick).status.MPI_SOURCE NA_MPI_ONESIDED_TAG ta.onesided_comm,
              Event.hg_thread_mutex_unlock] }) := by
  have hlen : List.take 24 r.image = r.image :=
    List.take_of_length_le (le_of_eq (onesided_info_image_length r))
  have hne : ¬ (MPI_ONESIDED_GET = MPI_ONESIDED_END) := by decide
  have hne2 : ¬ (MPI_ONESIDED_GET = MPI_ONESIDED_PUT) := by decide
  simp [na_mpi_onesided_service_iteration, hsa, MPI_Recv, World.reply, World.step, hret, hdata,
    sizeof_mpi_onesided_info_t, hlen, hr, hop, hne, hne2, hg_thread_mutex_lock,
    hg_hash_table_lookup, World.log, hmap, hnn, hh, MPI_Send, hg_thread_mutex_unlock]

/-- A blocking `na_mpi_wait` on a request without acknowledgement whose receive, posted for
`count` bytes at address `addr`, completes with the bytes `data`: the call succeeds, the bytes
are in memory at `addr`, the request object is released. -/
theorem na_mpi_wait_delivers (p timeout : Nat) (status : StatusArg) (w : World) (k ack : Nat)
    (ty : mpi_req_type_t) (addr : Nat) (count : Int) (rest : List (Nat × (RecvTarget × Int)))
    (hp : p ≠ NULL) (ht : timeout ≠ 0)
    (hr : w.reqs p = some { type := ty, request := some k, ack := ack, ack_request := none })
    (hposted : w.posted = (k, (RecvTarget.mem addr, count)) :: rest)
    (hret : (w.oracle w.tick).ret = MPI_SUCCESS) :
    ∃ st w1, na_mpi_wait p timeout status w = some ((NA_SUCCESS, st), w1) ∧
      w1.mem = writeBytes w.mem addr ((w.oracle w.tick).data.take count.toNat) ∧
      w1.reqs p = none := by
  have hlook : List.lookup k w.posted = some (RecvTarget.mem addr, count) := by
    rw [hposted]; simp [List.lookup]
  have hw : MPI_Wait p ReqField.primary w
      = some ((MPI_SUCCESS, (w.oracle w.tick).status),
          { w with
            mem := writeBytes w.mem addr ((w.oracle w.tick).data.take count.toNat)
            posted := w.posted.filter (fun e => e.1 ≠ k)
            reqs := Function.update w.reqs p
              (some { type := ty, request := none, ack := ack, ack_request := none })
            trace := w.trace ++ [Event.MPI_Wait (some k)]
            tick := w.tick + 1 }) := by
    simp [MPI_Wait, hr, World.reply, hret, World.step, World.complete, mpi_req_t.field, hlook,
      mpi_req_t.setField]
  simp only [na_mpi_wait, hp, ht, if_false, hw, Option.bind_eq_bind, Option.some_bind, ne_eq,
    not_true_eq_false, na_mpi_wait_completed, Function.update_same, free_req, Option.pure_def]
  exact ⟨_, _, rfl, rfl, Function.update_same _ _ _⟩

/-- C2: emulated get, end to end. A region is registered at base `X` by `na_mpi_mem_register`
(target state `wT`). In the initiator, `na_mpi_get` with a remote handle of base `X`, remote
offset `d`, local offset `l` and length `n <= 2^31 - 1` sends the control record
`{X, d, n, MPI_ONESIDED_GET}` with tag `NA_MPI_ONESIDED_TAG` on the side channel, posts a
non-blocking receive of `n` bytes at local base + `l` with that tag, and outputs a request of
kind `MPI_RECV_OP` without acknowledgement request. The pass of the service that receives this
record looks `X` up in the handle map and sends the `n` bytes at `X + d` to the source of the
record with that tag. When the initiator's blocking wait completes the posted receive with this
message, the `n` bytes at local base + `l` equal the `n` bytes at `X + d` of the target. -/
theorem C2_get_end_to_end (wT0 wT : World) (X size flags hp sa : Nat) (ta : mpi_addr_t)
    (wI : World) (lhp rhp ra request timeout : Nat) (lh rh : mpi_mem_handle_t) (a : mpi_addr_t)
    (l d : Int) (n : Nat) (status : StatusArg)
    (hX : X < 2 ^ 64)
    (hreg : na_mpi_mem_register X size flags wT0 = ((NA_SUCCESS, hp), wT))
    (hsa : wT.addrs sa = some ta)
    (hlh : wI.handles lhp = some lh) (hrh : wI.handles rhp = some rh) (hbase : rh.base = X)
    (hra : wI.addrs ra = some a) (hn : n ≤ 2 ^ 31 - 1)
    (hirecv : (wI.oracle (wI.tick + 1)).ret = MPI_SUCCESS)
    (hrecv : (wT.oracle wT.tick).ret = MPI_SUCCESS)
    (hdata : (wT.oracle wT.tick).data
      = ({ base := X, disp := toAint d, count := n, op := MPI_ONESIDED_GET } :
          mpi_onesided_info_t).image)
    (ht : timeout ≠ 0)
    (hwait : (wI.oracle (wI.tick + 2)).ret = MPI_SUCCESS)
    (hdeliv : (wI.oracle (wI.tick + 2)).data = readBytes wT.mem (ptr_add X d) n) :
    ∃ p k wI1 wT1 st wI2,
      na_mpi_get lhp l rhp d n ra request wI = some ((NA_SUCCESS, p), wI1) ∧
      wI1.trace = wI.trace ++ [Event.malloc p,
        Event.MPI_Send
          ({ base := X, disp := toAint d, count := n, op := MPI_ONESIDED_GET } :
            mpi_onesided_info_t).image
          sizeof_mpi_onesided_info_t a.rank NA_MPI_ONESIDED_TAG a.onesided_comm,
        Event.MPI_Irecv (RecvTarget.mem (ptr_add lh.base l)) n a.rank NA_MPI_ONESIDED_TAG
          a.onesided_comm] ∧
      wI1.reqs p
        = some { type := MPI_RECV_OP, request := some k, ack := 0, ack_request := none } ∧
      na_mpi_onesided_service_iteration sa wT = some (false, wT1) ∧
      wT1.trace = wT.trace ++ [Event.MPI_Recv RecvTarget.var sizeof_mpi_onesided_info_t Sel.any
          Sel.any ta.onesided_comm,
        Event.hg_thread_mutex_lock, Event.hg_hash_table_lookup X,
        Event.MPI_Send (readBytes wT.mem (ptr_add X d) n) n
          (wT.oracle wT.tick).status.MPI_SOURCE NA_MPI_ONESIDED_TAG ta.onesided_comm,
        Event.hg_thread_mutex_unlock] ∧
      na_mpi_wait p timeout status wI1 = some ((NA_SUCCESS, st), wI2) ∧
      readBytes wI2.mem (ptr_add lh.base l) n = readBytes wT.mem (ptr_add X d) n := by
  obtain ⟨hnn, hmap, hh, _⟩ := na_mpi_mem_register_success X size flags wT0 wT hp hreg
  have hn2 : n < 2 ^ 31 := by norm_num at hn ⊢; omega
  have hcount : toInt (n : Int) = (n : Int) := toInt_of_lt n hn2
  have hget := na_mpi_get_posted lhp l rhp d n ra request wI lh rh a hlh hrh hra hirecv
  rw [hcount, hbase, ptr_add_toAint] at hget
  have hrec : mpi_onesided_info_t.ofImage
      ({ base := X, disp := toAint d, count := n, op := MPI_ONESIDED_GET } :
        mpi_onesided_info_t).image
      = { base := X, disp := toAint d, count := n, op := MPI_ONESIDED_GET } :=
    onesided_info_ofImage_image _ hX (toAint_range d).1 (toAint_range d).2
      (count_range n hn).1 (count_range n hn).2
      (by simp only [MPI_ONESIDED_GET]; norm_num) (by simp only [MPI_ONESIDED_GET]; norm_num)
  have hsvc := na_mpi_onesided_service_iteration_get sa wT ta
    { base := X, disp := toAint d, count := n, op := MPI_ONESIDED_GET } hp
    { base := X, size := toAint size, attr := flags } hsa hrecv hdata hrec rfl hmap hnn hh
  simp only [ptr_add_toAint, Int.toNat_ofNat] at hsvc
  obtain ⟨st, wI2, hw, hmem, _⟩ := na_mpi_wait_delivers (wI.brk + 1) timeout status
    { wI with
      brk := wI.brk + 1
      reqs := Function.update wI.reqs (wI.brk + 1)
        (some { type := MPI_RECV_OP, request := some (wI.oracle (wI.tick + 1)).request,
                ack := 0, ack_request := none })
      posted := ((wI.oracle (wI.tick + 1)).request,
        (RecvTarget.mem (ptr_add lh.base l), (n : Int))) :: wI.posted
      trace := wI.trace ++ [Event.malloc (wI.brk + 1),
        Event.MPI_Send
          ({ base := X, disp := toAint d, count := n, op := MPI_ONESIDED_GET } :
            mpi_onesided_info_t).image
          sizeof_mpi_onesided_info_t a.rank NA_MPI_ONESIDED_TAG a.onesided_comm,
        Event.MPI_Irecv (RecvTarget.mem (ptr_add lh.base l)) n a.rank NA_MPI_ONESIDED_TAG
          a.onesided_comm]
      tick := wI.tick + 2 }
    (wI.oracle (wI.tick + 1)).request 0 MPI_RECV_OP (ptr_add lh.base l) n wI.posted
    (by simp [NULL]) ht (Function.update_same _ _ _) rfl hwait
  refine ⟨_, _, _, _, st, wI2, hget, rfl, Function.update_same _ _ _, hsvc, rfl, hw, ?_⟩
  rw [hmem]
  simp only [hdeliv, Int.toNat_ofNat]
  rw [List.take_of_length_le (le_of_eq (readBytes_length _ _ _))]
  exact readBytes_writeBytes_of_length _ _ _ _ (readBytes_length _ _ _)

/-- C2 at sample states: the target registers the 1024 bytes at 4096, the initiator gets 8 bytes
at offset 16 into its region at 8192. -/
theorem C2_get_end_to_end_witness :
    na_mpi_mem_register 4096 1024 0 sample_target = ((NA_SUCCESS, 4), sample_target_registered) ∧
    (sample_target_registered.oracle sample_target_registered.tick).data
      = sample_get_record.image ∧
    (sample_initiator.oracle (sample_initiator.tick + 2)).data
      = readBytes sample_target_registered.mem 4112 8 ∧
    (∃ p k wI1 wT1 st wI2,
      na_mpi_get 2 0 1 16 8 3 0 sample_initiator = some ((NA_SUCCESS, p), wI1) ∧
      wI1.trace = sample_initiator.trace ++ [Event.malloc p,
        Event.MPI_Send
          ({ base := 4096, disp := toAint 16, count := (8 : Nat), op := MPI_ONESIDED_GET } :
            mpi_onesided_info_t).image
          sizeof_mpi_onesided_info_t 0 NA_MPI_ONESIDED_TAG 11,
        Event.MPI_Irecv (RecvTarget.mem (ptr_add 8192 0)) (8 : Nat) 0 NA_MPI_ONESIDED_TAG 11] ∧
      wI1.reqs p
        = some { type := MPI_RECV_OP, request := some k, ack := 0, ack_request := none } ∧
      na_mpi_onesided_service_iteration 3 sample_target_registered = some (false, wT1) ∧
      wT1.trace = sample_target_registered.trace ++ [Event.MPI_Recv RecvTarget.var
          sizeof_mpi_onesided_info_t Sel.any Sel.any 11,
        Event.hg_thread_mutex_lock, Event.hg_hash_table_lookup 4096,
        Event.MPI_Send (readBytes sample_target_registered.mem (ptr_add 4096 16) 8) (8 : Nat)
          0 NA_MPI_ONESIDED_TAG 11,
        Event.hg_thread_mutex_unlock] ∧
      na_mpi_wait p 1 StatusArg.null wI1 = some ((NA_SUCCESS, st), wI2) ∧
      readBytes wI2.mem (ptr_add 8192 0) 8
        = readBytes sample_target_registered.mem (ptr_add 4096 16) 8) :=
  ⟨rfl, rfl, rfl,
    C2_get_end_to_end sample_target sample_target_registered 4096 1024 0 4 3
      { comm := 10, rank := 0, is_reference := false, onesided_comm := 11 }
      sample_initiator 2 1 3 0 1 { base := 8192, size := 1024, attr := 1 }
      { base := 4096, size := 1024, attr := 0 }
      { comm := 10, rank := 0, is_reference := false, onesided_comm := 11 }
      0 16 8 StatusArg.null (by decide) rfl rfl rfl rfl rfl rfl (by decide) rfl rfl rfl
      (by decide) rfl rfl⟩

/-- The state after `na_mpi_put` when the payload send and the receive of the acknowledgement are
posted successfully. -/
theorem na_mpi_put_posted (NA_MEM_READWRITE lhp : Nat) (l : Int) (rhp : Nat) (d : Int)
    (n ra request : Nat) (w : World) (lh rh : mpi_mem_handle_t) (a : mpi_addr_t)
    (hlh : w.handles lhp = some lh) (hrh : w.handles rhp = some rh)
    (hattr : rh.attr = NA_MEM_READWRITE) (hra : w.addrs ra = some a)
    (hisend : (w.oracle (w.tick + 1)).ret = MPI_SUCCESS)
    (hirecv : (w.oracle (w.tick + 2)).ret = MPI_SUCCESS) :
    na_mpi_put NA_MEM_READWRITE lhp l rhp d n ra request w
      = some ((NA_SUCCESS, w.brk + 1),
          { w with
            brk := w.brk + 1
            reqs := Function.update w.reqs (w.brk + 1)
              (some { type := MPI_SEND_OP, request := some (w.oracle (w.tick + 1)).request,
                      ack := 0, ack_request := some (w.oracle (w.tick + 2)).request })
            posted := ((w.oracle (w.tick + 2)).request,
              (RecvTarget.ack (w.brk + 1), 1)) :: w.posted
            trace := w.trace ++ [Event.malloc (w.brk + 1),
              Event.MPI_Send
                ({ base := rh.base, disp := toAint d, count := toInt n, op := MPI_ONESIDED_PUT } :
                  mpi_onesided_info_t).image
                sizeof_mpi_onesided_info_t a.rank NA_MPI_ONESIDED_TAG a.onesided_comm,
              Event.MPI_Isend (readBytes w.mem (ptr_add lh.base (toAint l)) (toInt n).toNat)
                (toInt n) a.rank NA_MPI_ONESIDED_TAG a.onesided_comm,
              Event.MPI_Irecv (RecvTarget.ack (w.brk + 1)) 1 a.rank NA_MPI_ONESIDED_ACK_TAG
                a.onesided_comm]
            tick := w.tick + 3 }) := by
  simp [na_mpi_put, malloc_req, malloc, set_req, hlh, hrh, hattr, hra, MPI_Send, MPI_Isend,
    MPI_Irecv, World.step, World.reply, hisend, hirecv, mpi_req_t.setField]

/-- The state after one pass of the service that receives a put record for a registered base
and then the payload. -/
theorem na_mpi_onesided_service_iteration_put (sa : Nat) (w : World) (ta : mpi_addr_t)
    (r : mpi_onesided_info_t) (hp : Nat) (h : mpi_mem_handle_t)
    (hsa : w.addrs sa = some ta) (hret : (w.oracle w.tick).ret = MPI_SUCCESS)
    (hdata : (w.oracle w.tick).data = r.image)
    (hr : mpi_onesided_info_t.ofImage r.image = r) (hop : r.op = MPI_ONESIDED_PUT)
    (hmap : w.mem_handle_map.lookup r.base = some hp) (hnn : hp ≠ NULL)
    (hh : w.handles hp = some h)
    (hpayload : (w.oracle (w.tick + 1)).ret = MPI_SUCCESS) :
    na_mpi_onesided_service_iteration sa w
      = some (false,
          { w with
            mem := writeBytes w.mem (ptr_add h.base r.disp)
              ((w.oracle (w.tick + 1)).data.take r.count.toNat)
            mem_map_mutex := false
            tick := w.tick + 3
            trace := w.trace ++ [Event.MPI_Recv RecvTarget.var sizeof_mpi_onesided_info_t Sel.any
                Sel.any ta.onesided_comm,
              Event.hg_thread_mutex_lock, Event.hg_hash_table_lookup r.base,
              Event.MPI_Recv (RecvTarget.mem (ptr_add h.base r.disp)) r.count
                (Sel.is (w.oracle w.tick).status.MPI_SOURCE) (Sel.is NA_MPI_ONESIDED_TAG)
                ta.onesided_comm,
              Event.MPI_Send [w.junk_byte] 1 (w.oracle w.tick).status.MPI_SOURCE
                NA_MPI_ONESIDED_ACK_TAG ta.onesided_comm,
              Event.hg_thread_mutex_unlock] }) := by
  have hlen : List.take 24 r.image = r.image :=
    List.take_of_length_le (le_of_eq (onesided_info_image_length r))
  have hne : ¬ (MPI_ONESIDED_PUT = MPI_ONESIDED_END) := by decide
  simp [na_mpi_onesided_service_iteration, hsa, MPI_Recv, World.reply, World.step, hret, hdata,
    sizeof_mpi_onesided_info_t, hlen, hr, hop, hne, hg_thread_mutex_lock,
    hg_hash_table_lookup, World.log, hmap, hnn, hh, MPI_Send, hg_thread_mutex_unlock, hpayload]

/-- C3: emulated put, end to end. A region is registered at base `X` by `na_mpi_mem_register`
(target state `wT`). In the initiator, `na_mpi_put` with a remote handle of base `X` and
read-write access, remote offset `d`, local offset `l` and length `n <= 2^31 - 1` sends the
control record `{X, d, n, MPI_ONESIDED_PUT}` with tag `NA_MPI_ONESIDED_TAG`, then posts a
non-blocking send of the `n` bytes at local base + `l` with that tag and a receive of one byte
with tag `NA_MPI_ONESIDED_ACK_TAG`, and outputs a request of kind `MPI_SEND_OP` that carries
both handles. The pass of the service that receives this record receives `n` bytes at `X + d`
from the source of the record and then sends one byte with tag `NA_MPI_ONESIDED_ACK_TAG` to
that source; when the payload it receives is the one the initiator sent, the `n` bytes at
`X + d` of the target equal the `n` bytes at local base + `l` of the initiator. -/
theorem C3_put_end_to_end (NA_MEM_READWRITE : Nat) (wT0 wT : World) (X size flags hp sa : Nat)
    (ta : mpi_addr_t) (wI : World) (lhp rhp ra request : Nat) (lh rh : mpi_mem_handle_t)
    (a : mpi_addr_t) (l d : Int) (n : Nat)
    (hX : X < 2 ^ 64)
    (hreg : na_mpi_mem_register X size flags wT0 = ((NA_SUCCESS, hp), wT))
    (hsa : wT.addrs sa = some ta)
    (hlh : wI.handles lhp = some lh) (hrh : wI.handles rhp = some rh) (hbase : rh.base = X)
    (hattr : rh.attr = NA_MEM_READWRITE)
    (hra : wI.addrs ra = some a) (hn : n ≤ 2 ^ 31 - 1)
    (hisend : (wI.oracle (wI.tick + 1)).ret = MPI_SUCCESS)
    (hirecv : (wI.oracle (wI.tick + 2)).ret = MPI_SUCCESS)
    (hrecv : (wT.oracle wT.tick).ret = MPI_SUCCESS)
    (hdata : (wT.oracle wT.tick).data
      = ({ base := X, disp := toAint d, count := n, op := MPI_ONESIDED_PUT } :
          mpi_onesided_info_t).image)
    (hpayload : (wT.oracle (wT.tick + 1)).ret = MPI_SUCCESS)
    (hdeliv : (wT.oracle (wT.tick + 1)).data = readBytes wI.mem (ptr_add lh.base l) n) :
    ∃ p k1 k2 wI1 wT1,
      na_mpi_put NA_MEM_READWRITE lhp l rhp d n ra request wI = some ((NA_SUCCESS, p), wI1) ∧
      wI1.trace = wI.trace ++ [Event.malloc p,
        Event.MPI_Send
          ({ base := X, disp := toAint d, count := n, op := MPI_ONESIDED_PUT } :
            mpi_onesided_info_t).image
          sizeof_mpi_onesided_info_t a.rank NA_MPI_ONESIDED_TAG a.onesided_comm,
        Event.MPI_Isend (readBytes wI.mem (ptr_add lh.base l) n) n a.rank NA_MPI_ONESIDED_TAG
          a.onesided_comm,
        Event.MPI_Irecv (RecvTarget.ack p) 1 a.rank NA_MPI_ONESIDED_ACK_TAG a.onesided_comm] ∧
      wI1.reqs p
        = some { type := MPI_SEND_OP, request := some k1, ack := 0, ack_request := some k2 } ∧
      na_mpi_onesided_service_iteration sa wT = some (false, wT1) ∧
      wT1.trace = wT.trace ++ [Event.MPI_Recv RecvTarget.var sizeof_mpi_onesided_info_t Sel.any
          Sel.any ta.onesided_comm,
        Event.hg_thread_mutex_lock, Event.hg_hash_table_lookup X,
        Event.MPI_Recv (RecvTarget.mem (ptr_add X d)) n
          (Sel.is (wT.oracle wT.tick).status.MPI_SOURCE) (Sel.is NA_MPI_ONESIDED_TAG)
          ta.onesided_comm,
        Event.MPI_Send [wT.junk_byte] 1 (wT.oracle wT.tick).status.MPI_SOURCE
          NA_MPI_ONESIDED_ACK_TAG ta.onesided_comm,
        Event.hg_thread_mutex_unlock] ∧
      readBytes wT1.mem (ptr_add X d) n = readBytes wI.mem (ptr_add lh.base l) n := by
  obtain ⟨hnn, hmap, hh, _⟩ := na_mpi_mem_register_success X size flags wT0 wT hp hreg
  have hn2 : n < 2 ^ 31 := by norm_num at hn ⊢; omega
  have hcount : toInt (n : Int) = (n : Int) := toInt_of_lt n hn2
  have hput := na_mpi_put_posted NA_MEM_READWRITE lhp l rhp d n ra request wI lh rh a hlh hrh
    hattr hra hisend hirecv
  rw [hcount, hbase, ptr_add_toAint, Int.toNat_ofNat] at hput
  have hrec : mpi_onesided_info_t.ofImage
      ({ base := X, disp := toAint d, count := n, op := MPI_ONESIDED_PUT } :
        mpi_onesided_info_t).image
      = { base := X, disp := toAint d, count := n, op := MPI_ONESIDED_PUT } :=
    onesided_info_ofImage_image _ hX (toAint_range d).1 (toAint_range d).2
      (count_range n hn).1 (count_range n hn).2
      (by simp only [MPI_ONESIDED_PUT]; norm_num) (by simp only [MPI_ONESIDED_PUT]; norm_num)
  have hsvc := na_mpi_onesided_service_iteration_put sa wT ta
    { base := X, disp := toAint d, count := n, op := MPI_ONESIDED_PUT } hp
    { base := X, size := toAint size, attr := flags } hsa hrecv hdata hrec rfl hmap hnn hh
    hpayload
  simp only [ptr_add_toAint, Int.toNat_ofNat, hdeliv] at hsvc
  refine ⟨_, _, _, _, _, hput, rfl, Function.update_same _ _ _, hsvc, rfl, ?_⟩
  simp only
  rw [List.take_of_length_le (le_of_eq (readBytes_length _ _ _))]
  exact readBytes_writeBytes_of_length _ _ _ _ (readBytes_length _ _ _)

/-- C3 at sample states: the target registers the 1024 bytes at 4096 read-write, the initiator
puts the 8 bytes at offset 8 of its region at 8192 to offset 16 of the target's region. -/
theorem C3_put_end_to_end_witness :
    na_mpi_mem_register 4096 1024 0 sample_put_target
      = ((NA_SUCCESS, 4), sample_put_target_registered) ∧
    (sample_put_target_registered.oracle sample_put_target_registered.tick).data
      = sample_put_record.image ∧
    (sample_put_target_registered.oracle (sample_put_target_registered.tick + 1)).data
      = readBytes sample_put_initiator.mem 8200 8 ∧
    (∃ p k1 k2 wI1 wT1,
      na_mpi_put 0 2 8 1 16 8 3 0 sample_put_initiator = some ((NA_SUCCESS, p), wI1) ∧
      wI1.trace = sample_put_initiator.trace ++ [Event.malloc p,
        Event.MPI_Send
          ({ base := 4096, disp := toAint 16, count := (8 : Nat), op := MPI_ONESIDED_PUT } :
            mpi_onesided_info_t).image
          sizeof_mpi_onesided_info_t 0 NA_MPI_ONESIDED_TAG 11,
        Event.MPI_Isend (readBytes sample_put_initiator.mem (ptr_add 8192 8) 8) (8 : Nat) 0
          NA_MPI_ONESIDED_TAG 11,
        Event.MPI_Irecv (RecvTarget.ack p) 1 0 NA_MPI_ONESIDED_ACK_TAG 11] ∧
      wI1.reqs p
        = some { type := MPI_SEND_OP, request := some k1, ack := 0, ack_request := some k2 } ∧
      na_mpi_onesided_service_iteration 3 sample_put_target_registered = some (false, wT1) ∧
      wT1.trace = sample_put_target_registered.trace ++ [Event.MPI_Recv RecvTarget.var
          sizeof_mpi_onesided_info_t Sel.any Sel.any 11,
        Event.hg_thread_mutex_lock, Event.hg_hash_table_lookup 4096,
        Event.MPI_Recv (RecvTarget.mem (ptr_add 4096 16)) (8 : Nat) (Sel.is 0)
          (Sel.is NA_MPI_ONESIDED_TAG) 11,
        Event.MPI_Send [85] 1 0 NA_MPI_ONESIDED_ACK_TAG 11,
        Event.hg_thread_mutex_unlock] ∧
      readBytes wT1.mem (ptr_add 4096 16) 8
        = readBytes sample_put_initiator.mem (ptr_add 8192 8) 8) :=
  ⟨rfl, rfl, rfl,
    C3_put_end_to_end 0 sample_put_target sample_put_target_registered 4096 1024 0 4 3
      { comm := 10, rank := 0, is_reference := false, onesided_comm := 11 }
      sample_put_initiator 2 1 3 0 { base := 8192, size := 1024, attr := 1 }
      { base := 4096, size := 1024, attr := 0 }
      { comm := 10, rank := 0, is_reference := false, onesided_comm := 11 }
      8 16 8 (by decide) rfl rfl rfl rfl rfl rfl rfl (by decide) rfl rfl rfl rfl rfl rfl⟩

/-! ## Unexpected receive with nothing pending -/

/-- C11: when the probe succeeds and reports no pending message, `na_mpi_recv_unexpected` called
with a non-null buffer returns success and leaves the actual size, source, tag and request
outputs as they were; the state changes only by the call of `MPI_Iprobe`: nothing is allocated
and no receive is posted. -/
theorem C11_recv_unexpected_nothing_pending (buf buf_size : Nat)
    (actual_buf_size source : Option Nat) (tag : Option Int) (request : Nat) (w : World)
    (hbuf : buf ≠ NULL) (hret : (w.oracle w.tick).ret = MPI_SUCCESS)
    (hflag : (w.oracle w.tick).flag = 0) :
    na_mpi_recv_unexpected buf buf_size actual_buf_size source tag request w
      = some ({ ret := NA_SUCCESS, actual_buf_size := actual_buf_size, source := source,
                tag := tag, request := request },
          { w with
            trace := w.trace ++ [Event.MPI_Iprobe Sel.any Sel.any w.server_remote_addr.comm]
            tick := w.tick + 1 }) := by
  simp [na_mpi_recv_unexpected, hbuf, MPI_Iprobe, World.reply, hret, hflag, World.step]

/-- C11 at a sample state: an idle server, a buffer of 4096 bytes at address 600. -/
theorem C11_recv_unexpected_nothing_pending_witness :
    (600 ≠ NULL) ∧ (sample_server_idle.oracle sample_server_idle.tick).ret = MPI_SUCCESS ∧
    (sample_server_idle.oracle sample_server_idle.tick).flag = 0 ∧
    na_mpi_recv_unexpected 600 4096 (some 9) (some 8) (some 7) 6 sample_server_idle
      = some ({ ret := NA_SUCCESS, actual_buf_size := some 9, source := some 8, tag := some 7,
                request := 6 },
          { sample_server_idle with
            trace := sample_server_idle.trace ++ [Event.MPI_Iprobe Sel.any Sel.any 20]
            tick := sample_server_idle.tick + 1 }) :=
  ⟨by decide, rfl, rfl,
    C11_recv_unexpected_nothing_pending 600 4096 (some 9) (some 8) (some 7) 6 sample_server_idle
      (by decide) rfl rfl⟩

/-! ## Serialize and deserialize, each on its own -/

theorem writeBytes_outside (mem : Nat → Nat) (a : Nat) (bs : List Nat) (x : Nat)
    (hx : x < a ∨ a + bs.length ≤ x) : writeBytes mem a bs x = mem x := by
  unfold writeBytes
  have h : ¬ (a ≤ x ∧ x < a + bs.length) := by omega
  simp [h]

/-- C12: for every descriptor `h` held at a valid pointer and every buffer size `n`,
`na_mpi_mem_handle_serialize` fails if and only if `n < sizeof(mpi_mem_handle_t)`; on failure
the memory is unchanged; on success the first `sizeof(mpi_mem_handle_t)` bytes of the buffer are
the byte image of `h` and every byte outside them is unchanged; in both cases the descriptors
are unchanged. -/
theorem C12_serialize_contract (w : World) (p : Nat) (h : mpi_mem_handle_t) (buf n : Nat)
    (hp : w.handles p = some h) :
    ∃ ret w1, na_mpi_mem_handle_serialize buf n p w = some (ret, w1) ∧
      (ret = NA_FAIL ↔ n < sizeof_mpi_mem_handle_t) ∧
      (ret = NA_FAIL → w1.mem = w.mem) ∧
      (ret = NA_SUCCESS →
        readBytes w1.mem buf sizeof_mpi_mem_handle_t = h.image ∧
        ∀ x, (x < buf ∨ buf + sizeof_mpi_mem_handle_t ≤ x) → w1.mem x = w.mem x) ∧
      w1.handles = w.handles := by
  by_cases hn : n < sizeof_mpi_mem_handle_t
  · refine ⟨NA_FAIL,
      NA_ERROR_DEFAULT "Buffer size too small for serializing parameter" w, ?_, ?_, ?_, ?_, rfl⟩
    · simp [na_mpi_mem_handle_serialize, hn]
    · exact ⟨fun _ => hn, fun _ => rfl⟩
    · intro _; rfl
    · intro hc; cases hc
  · refine ⟨NA_SUCCESS, { w with mem := writeBytes w.mem buf h.image },
      na_mpi_mem_handle_serialize_ok w p h buf n hp (Nat.not_lt.mp hn), ?_, ?_, ?_, rfl⟩
    · exact ⟨fun hc => (by cases hc), fun hc => absurd hc hn⟩
    · intro hc; cases hc
    · intro _
      refine ⟨readBytes_writeBytes_of_length _ _ _ _ (mem_handle_image_length h), ?_⟩
      intro x hx
      exact writeBytes_outside w.mem buf h.image x (by rw [mem_handle_image_length h]; exact hx)

/-- C12 at the sample state: the descriptor at pointer 1 and a buffer of 16 bytes at 500. -/
theorem C12_serialize_contract_witness :
    sample_world.handles 1 = some { base := 4096, size := 1024, attr := 0 } ∧
    (∃ ret w1, na_mpi_mem_handle_serialize 500 16 1 sample_world = some (ret, w1) ∧
      (ret = NA_FAIL ↔ 16 < sizeof_mpi_mem_handle_t) ∧
      (ret = NA_FAIL → w1.mem = sample_world.mem) ∧
      (ret = NA_SUCCESS →
        readBytes w1.mem 500 sizeof_mpi_mem_handle_t
          = ({ base := 4096, size := 1024, attr := 0 } : mpi_mem_handle_t).image ∧
        ∀ x, (x < 500 ∨ 500 + sizeof_mpi_mem_handle_t ≤ x) → w1.mem x = sample_world.mem x) ∧
      w1.handles = sample_world.handles) :=
  ⟨rfl, C12_serialize_contract sample_world 1 { base := 4096, size := 1024, attr := 0 } 500 16 rfl⟩

/-- C13: for every buffer and size `n`, `na_mpi_mem_handle_deserialize` fails if and only if
`n < sizeof(mpi_mem_handle_t)`; on failure the output keeps its value and nothing is allocated;
on success the output is a non-null pointer just obtained from `malloc` that holds the
descriptor built from the first `sizeof(mpi_mem_handle_t)` bytes of the buffer; in both cases
the handle map is unchanged. -/
theorem C13_deserialize_contract (w : World) (old buf n : Nat) :
    ∃ ret q w1, na_mpi_mem_handle_deserialize old buf n w = ((ret, q), w1) ∧
      (ret = NA_FAIL ↔ n < sizeof_mpi_mem_handle_t) ∧
      (ret = NA_FAIL → q = old ∧ w1.handles = w.handles ∧ w1.brk = w.brk ∧
        w1.trace = w.trace ++
          [Event.NA_ERROR "Buffer size too small for deserializing parameter"]) ∧
      (ret = NA_SUCCESS → q ≠ NULL ∧ w1.trace = w.trace ++ [Event.malloc q] ∧
        w1.handles q
          = some (mpi_mem_handle_t.ofImage (readBytes w.mem buf sizeof_mpi_mem_handle_t))) ∧
      w1.mem_handle_map = w.mem_handle_map := by
  by_cases hn : n < sizeof_mpi_mem_handle_t
  · refine ⟨NA_FAIL, old,
      NA_ERROR_DEFAULT "Buffer size too small for deserializing parameter" w, ?_, ?_, ?_, ?_, rfl⟩
    · simp [na_mpi_mem_handle_deserialize, hn]
    · exact ⟨fun _ => hn, fun _ => rfl⟩
    · intro _; exact ⟨rfl, rfl, rfl, rfl⟩
    · intro hc; cases hc
  · refine ⟨NA_SUCCESS, w.brk + 1, _,
      na_mpi_mem_handle_deserialize_ok w old buf n (Nat.not_lt.mp hn), ?_, ?_, ?_, rfl⟩
    · exact ⟨fun hc => (by cases hc), fun hc => absurd hc hn⟩
    · intro hc; cases hc
    · intro _
      exact ⟨by simp [NULL], rfl, Function.update_same _ _ _⟩

/-! ## Release of addresses -/

/-- The first `na_mpi_addr_free` of an allocated non-reference address succeeds: it joins the
service, destroys the mutex, frees the side channel, disconnects the primary communicator and
releases the object. -/
theorem na_mpi_addr_free_owner (p : Nat) (w : World) (a : mpi_addr_t) (hp : p ≠ NULL)
    (ha : w.addrs p = some a) (href : a.is_reference = false) :
    na_mpi_addr_free p w
      = some (NA_SUCCESS,
          { w with
            mem_map_mutex := false
            addrs := Function.update w.addrs p none
            trace := w.trace ++ [Event.hg_thread_join, Event.hg_thread_mutex_destroy,
              Event.MPI_Comm_free a.onesided_comm, Event.MPI_Comm_disconnect a.comm,
              Event.free p] }) := by
  simp [na_mpi_addr_free, hp, ha, href, World.log, free_addr]

/-- A call of `na_mpi_addr_free` on a non-null pointer that holds no address object (one that
has been released) reads the released object: it is undefined, and it is not the
"Already freed" report, which only a null pointer gets. -/
theorem na_mpi_addr_free_released (p : Nat) (w : World) (hp : p ≠ NULL)
    (ha : w.addrs p = none) : na_mpi_addr_free p w = none := by
  simp [na_mpi_addr_free, hp, ha]

/-- C14, the code at a failing input: `na_mpi_addr_free` called twice on the non-reference
address at pointer 3. The first call succeeds and releases the object. The second call does not
return the double-free report: the pointer is not null, so the call goes on to read
`is_reference` in the released object, which is undefined. -/
theorem C14_addr_free_twice :
    ∃ w1, na_mpi_addr_free 3 sample_world = some (NA_SUCCESS, w1) ∧
      w1.trace = [Event.hg_thread_join, Event.hg_thread_mutex_destroy, Event.MPI_Comm_free 11,
        Event.MPI_Comm_disconnect 10, Event.free 3] ∧
      w1.addrs 3 = none ∧
      na_mpi_addr_free 3 w1 = none :=
  ⟨_, rfl, rfl, rfl, rfl⟩

/-- C15: for every address with `is_reference = true`, `na_mpi_addr_free` returns success and
changes the state only by releasing the address object: no thread join, no mutex destroy, no
`MPI_Comm_free` and no `MPI_Comm_disconnect` is performed, and the server address keeps its
communicators. -/
theorem C15_addr_free_reference (p : Nat) (w : World) (a : mpi_addr_t) (hp : p ≠ NULL)
    (ha : w.addrs p = some a) (href : a.is_reference = true) :
    ∃ w1, na_mpi_addr_free p w = some (NA_SUCCESS, w1) ∧
      w1 = { w with addrs := Function.update w.addrs p none, trace := w.trace ++ [Event.free p] } ∧
      w1.server_remote_addr = w.server_remote_addr := by
  refine ⟨_, ?_, rfl, rfl⟩
  simp [na_mpi_addr_free, hp, ha, href, free_addr]

/-- C15 at a sample state: the reference address at pointer 4 of a server. -/
theorem C15_addr_free_reference_witness :
    (4 ≠ NULL) ∧
    sample_server_with_peer.addrs 4
      = some { comm := 20, rank := 3, is_reference := true, onesided_comm := 21 } ∧
    (∃ w1, na_mpi_addr_free 4 sample_server_with_peer = some (NA_SUCCESS, w1) ∧
      w1 = { sample_server_with_peer with
        addrs := Function.update sample_server_with_peer.addrs 4 none
        trace := sample_server_with_peer.trace ++ [Event.free 4] } ∧
      w1.server_remote_addr = sample_server_with_peer.server_remote_addr) :=
  ⟨by decide, rfl,
    C15_addr_free_reference 4 sample_server_with_peer
      { comm := 20, rank := 3, is_reference := true, onesided_comm := 21 } (by decide) rfl rfl⟩

/-! ## Failure paths of put, lookup and deregister -/

/-- In `na_mpi_put`, when the payload send fails the request object is released and the local
pointer set to null, and the receive of the acknowledgement is then posted through that null
pointer: the call is undefined. -/
theorem na_mpi_put_isend_failure (NA_MEM_READWRITE lhp : Nat) (l : Int) (rhp : Nat) (d : Int)
    (n ra request : Nat) (w : World) (lh rh : mpi_mem_handle_t) (a : mpi_addr_t)
    (hlh : w.handles lhp = some lh) (hrh : w.handles rhp = some rh)
    (hattr : rh.attr = NA_MEM_READWRITE) (hra : w.addrs ra = some a)
    (hnull : w.reqs NULL = none)
    (hisend : (w.oracle (w.tick + 1)).ret ≠ MPI_SUCCESS) :
    na_mpi_put NA_MEM_READWRITE lhp l rhp d n ra request w = none := by
  have h0 : ¬ (NULL = w.brk + 1) := by simp [NULL]
  have h1 : ¬ (w.brk + 1 = NULL) := by simp [NULL]
  simp [na_mpi_put, malloc_req, malloc, set_req, hlh, hrh, hattr, hra, MPI_Send, MPI_Isend,
    MPI_Irecv, World.step, World.reply, hisend, free_req, NA_ERROR_DEFAULT, World.log, h0, h1,
    hnull, Function.update]

/-- In `na_mpi_put`, when the payload send is posted and the receive of the acknowledgement
fails, the call returns `NA_FAIL`, the request output keeps its value, and the request object
allocated by the call is released, once. -/
theorem na_mpi_put_irecv_failure (NA_MEM_READWRITE lhp : Nat) (l : Int) (rhp : Nat) (d : Int)
    (n ra request : Nat) (w : World) (lh rh : mpi_mem_handle_t) (a : mpi_addr_t)
    (hlh : w.handles lhp = some lh) (hrh : w.handles rhp = some rh)
    (hattr : rh.attr = NA_MEM_READWRITE) (hra : w.addrs ra = some a)
    (hisend : (w.oracle (w.tick + 1)).ret = MPI_SUCCESS)
    (hirecv : (w.oracle (w.tick + 2)).ret ≠ MPI_SUCCESS) :
    ∃ w1 evs, na_mpi_put NA_MEM_READWRITE lhp l rhp d n ra request w
        = some ((NA_FAIL, request), w1) ∧
      w1.reqs (w.brk + 1) = none ∧ w1.trace = w.trace ++ Event.malloc (w.brk + 1) :: evs ∧
      evs.count (Event.free (w.brk + 1)) = 1 := by
  have h1 : ¬ (w.brk + 1 = NULL) := by simp [NULL]
  refine ⟨{ w with
      brk := w.brk + 1
      reqs := Function.update w.reqs (w.brk + 1) none
      tick := w.tick + 3
      trace := w.trace ++ [Event.malloc (w.brk + 1),
        Event.MPI_Send
          ({ base := rh.base, disp := toAint d, count := toInt n, op := MPI_ONESIDED_PUT } :
            mpi_onesided_info_t).image
          sizeof_mpi_onesided_info_t a.rank NA_MPI_ONESIDED_TAG a.onesided_comm,
        Event.MPI_Isend (readBytes w.mem (ptr_add lh.base (toAint l)) (toInt n).toNat)
          (toInt n) a.rank NA_MPI_ONESIDED_TAG a.onesided_comm,
        Event.MPI_Irecv (RecvTarget.ack (w.brk + 1)) 1 a.rank NA_MPI_ONESIDED_ACK_TAG
          a.onesided_comm,
        Event.NA_ERROR "MPI_Irecv() failed", Event.free (w.brk + 1)] },
    [Event.MPI_Send
      ({ base := rh.base, disp := toAint d, count := toInt n, op := MPI_ONESIDED_PUT } :
        mpi_onesided_info_t).image
      sizeof_mpi_onesided_info_t a.rank NA_MPI_ONESIDED_TAG a.onesided_comm,
    Event.MPI_Isend (readBytes w.mem (ptr_add lh.base (toAint l)) (toInt n).toNat)
      (toInt n) a.rank NA_MPI_ONESIDED_TAG a.onesided_comm,
    Event.MPI_Irecv (RecvTarget.ack (w.brk + 1)) 1 a.rank NA_MPI_ONESIDED_ACK_TAG
      a.onesided_comm,
    Event.NA_ERROR "MPI_Irecv() failed", Event.free (w.brk + 1)], ?_, ?_, ?_, ?_⟩
  · simp [na_mpi_put, malloc_req, malloc, set_req, hlh, hrh, hattr, hra, MPI_Send, MPI_Isend,
      MPI_Irecv, World.step, World.reply, hisend, hirecv, free_req, NA_ERROR_DEFAULT, World.log,
      h1, mpi_req_t.setField]
  · exact Function.update_same _ _ _
  · rfl
  · simp [List.count_cons]

/-- C16, the code at a failing input: an emulated put to the read-write descriptor at pointer 1
whose payload send is refused by the library. `na_mpi_put` does not return failure: after it has
released the request object and set its pointer to null it posts the receive of the
acknowledgement with `&mpi_request->ack` and `&mpi_request->ack_request` taken from the null
pointer, which is undefined. -/
theorem C16_put_isend_fails :
    sample_put_isend_fails.handles 1 = some { base := 4096, size := 1024, attr := 0 } ∧
    (sample_put_isend_fails.oracle (sample_put_isend_fails.tick + 1)).ret ≠ MPI_SUCCESS ∧
    sample_put_isend_fails.reqs NULL = none ∧
    na_mpi_put 0 2 8 1 16 8 3 0 sample_put_isend_fails = none :=
  ⟨rfl, by decide, rfl, rfl⟩

/-- In `na_mpi_addr_lookup`, when the connection fails the address object is released and the
local pointer set to null, and the call goes on to `MPI_Comm_dup(mpi_addr->comm, ...)` through
that null pointer: the call is undefined. -/
theorem na_mpi_addr_lookup_connect_failure (name : Nat) (addr : Option Nat) (w : World)
    (hnull : w.addrs NULL = none) (hconnect : (w.oracle w.tick).ret ≠ MPI_SUCCESS) :
    na_mpi_addr_lookup name addr w = none := by
  have h0 : ¬ (NULL = w.brk + 1) := by simp [NULL]
  have h1 : ¬ (w.brk + 1 = NULL) := by simp [NULL]
  simp [na_mpi_addr_lookup, malloc_addr, malloc, MPI_Comm_connect, World.reply, World.step,
    hconnect, free_addr, NA_ERROR_DEFAULT, World.log, h0, h1, MPI_Comm_dup, hnull,
    Function.update]

/-- C17, the code at a failing input: a lookup whose `MPI_Comm_connect` fails.
`na_mpi_addr_lookup` does not return at the failure: it releases the address, sets its pointer
to null, and goes on to duplicate the communicator `mpi_addr->comm` read through the null
pointer, which is undefined (the mutex initialisation and the creation of the service thread
follow in the source). -/
theorem C17_addr_lookup_connect_fails :
    (sample_connect_fails.oracle sample_connect_fails.tick).ret ≠ MPI_SUCCESS ∧
    sample_connect_fails.addrs NULL = none ∧
    na_mpi_addr_lookup 700 (some 0) sample_connect_fails = none :=
  ⟨by decide, rfl, rfl⟩

/-- The call `na_mpi_mem_deregister` on a pointer that holds no descriptor reads `base` through
it before any check: the call is undefined. -/
theorem na_mpi_mem_deregister_no_object (p : Nat) (w : World) (hp : w.handles p = none) :
    na_mpi_mem_deregister p w = none := by
  simp [na_mpi_mem_deregister, hg_thread_mutex_lock, hp]

/-- C18, the code at a failing input: `na_mpi_mem_deregister` called with the null pointer. The
call does not reach the "Already freed" report: with the mutex taken, it first reads
`mpi_mem_handle->base` through the null pointer to remove the key from the handle map, which is
undefined. -/
theorem C18_deregister_null :
    sample_world.handles NULL = none ∧ na_mpi_mem_deregister NULL sample_world = none :=
  ⟨rfl, rfl⟩

/-- C19: `na_mpi_get_unexpected_size` returns 4096 in every process state. -/
theorem C19_get_unexpected_size (w : World) : na_mpi_get_unexpected_size w = 4096 := rfl

/-! ## The service and an unregistered base -/

/-- One pass of the service that receives a record whose operation is not the end request and
whose base is not a key of the handle map: the error is logged, the mutex released, no payload
is received or sent, no acknowledgement is sent, and the loop is left. -/
theorem na_mpi_onesided_service_iteration_unregistered (sa : Nat) (w : World) (ta : mpi_addr_t)
    (hsa : w.addrs sa = some ta) (hret : (w.oracle w.tick).ret = MPI_SUCCESS)
    (hop : (mpi_onesided_info_t.ofImage
      ((w.oracle w.tick).data.take sizeof_mpi_onesided_info_t)).op ≠ MPI_ONESIDED_END)
    (hmap : w.mem_handle_map.lookup (mpi_onesided_info_t.ofImage
      ((w.oracle w.tick).data.take sizeof_mpi_onesided_info_t)).base = none) :
    na_mpi_onesided_service_iteration sa w
      = some (true,
          { w with
            mem_map_mutex := false
            tick := w.tick + 1
            trace := w.trace ++ [Event.MPI_Recv RecvTarget.var sizeof_mpi_onesided_info_t Sel.any
                Sel.any ta.onesided_comm,
              Event.hg_thread_mutex_lock,
              Event.hg_hash_table_lookup (mpi_onesided_info_t.ofImage
                ((w.oracle w.tick).data.take sizeof_mpi_onesided_info_t)).base,
              Event.NA_ERROR "Could not find memory handle, registered?",
              Event.hg_thread_mutex_unlock] }) := by
  have hop2 : ¬ (mpi_onesided_info_t.ofImage (List.take 24 (w.oracle w.tick).data)).op
      = MPI_ONESIDED_END := hop
  have hmap2 : List.lookup (mpi_onesided_info_t.ofImage (List.take 24 (w.oracle w.tick).data)).base
      w.mem_handle_map = none := hmap
  simp [na_mpi_onesided_service_iteration, hsa, MPI_Recv, World.reply, World.step, hret,
    sizeof_mpi_onesided_info_t, hop2, hg_thread_mutex_lock, hg_hash_table_lookup, World.log,
    hmap2, NULL, NA_ERROR_DEFAULT, hg_thread_mutex_unlock]

/-- C20, the code at a failing input: the service of a process that has registered nothing, with
get records for base 4096 arriving one after the other. The service, allowed five passes,
returns after the first: it receives one record, logs, releases the mutex, and leaves the loop
by `break`; no later record is received. -/
theorem C20_service_ends_on_unregistered_base :
    sample_service_unregistered.mem_handle_map.lookup 4096 = none ∧
    ∃ w1, na_mpi_onesided_service 5 3 sample_service_unregistered = some (true, w1) ∧
      w1.trace = [Event.MPI_Recv RecvTarget.var 24 Sel.any Sel.any 11,
        Event.hg_thread_mutex_lock, Event.hg_hash_table_lookup 4096,
        Event.NA_ERROR "Could not find memory handle, registered?",
        Event.hg_thread_mutex_unlock] ∧
      w1.tick = 1 ∧ w1.mem_map_mutex = false :=
  ⟨rfl, _, rfl, rfl, rfl, rfl⟩

/-! ## The transitions of the service -/

/-- The service leaves its loop when a pass does: the function returns with the state of that
pass. -/
theorem na_mpi_onesided_service_exit (fuel sa : Nat) (w w1 : World) (hsa : sa ≠ NULL)
    (h : na_mpi_onesided_service_iteration sa w = some (true, w1)) :
    na_mpi_onesided_service (fuel + 1) sa w = some (true, w1) := by
  simp [na_mpi_onesided_service, hsa, h]

/-- The service goes on with the next pass when a pass does not leave the loop. -/
theorem na_mpi_onesided_service_next (fuel sa : Nat) (w w1 : World) (hsa : sa ≠ NULL)
    (h : na_mpi_onesided_service_iteration sa w = some (false, w1)) :
    na_mpi_onesided_service (fuel + 1) sa w = na_mpi_onesided_service fuel sa w1 := by
  rw [na_mpi_onesided_service]
  simp [hsa, h]

/-- A pass whose control receive fails: the error is logged and the loop is left; the mutex is
not taken, the map is not looked up, nothing is sent or received, and the state does not depend
on the bytes of the record. -/
theorem na_mpi_onesided_service_iteration_recv_failure (sa : Nat) (w : World) (ta : mpi_addr_t)
    (hsa : w.addrs sa = some ta) (hret : (w.oracle w.tick).ret ≠ MPI_SUCCESS) :
    na_mpi_onesided_service_iteration sa w
      = some (true,
          { w with
            tick := w.tick + 1
            trace := w.trace ++ [Event.MPI_Recv RecvTarget.var sizeof_mpi_onesided_info_t Sel.any
                Sel.any ta.onesided_comm,
              Event.NA_ERROR "MPI_Recv() failed"] }) := by
  simp [na_mpi_onesided_service_iteration, hsa, MPI_Recv, World.reply, World.step, hret,
    NA_ERROR_DEFAULT, World.log]

/-- A pass that receives the end request: the loop is left; the mutex is not taken, the map is
not looked up, nothing is sent or received. -/
theorem na_mpi_onesided_service_iteration_end (sa : Nat) (w : World) (ta : mpi_addr_t)
    (hsa : w.addrs sa = some ta) (hret : (w.oracle w.tick).ret = MPI_SUCCESS)
    (hop : (mpi_onesided_info_t.ofImage
      ((w.oracle w.tick).data.take sizeof_mpi_onesided_info_t)).op = MPI_ONESIDED_END) :
    na_mpi_onesided_service_iteration sa w
      = some (true,
          { w with
            tick := w.tick + 1
            trace := w.trace ++ [Event.MPI_Recv RecvTarget.var sizeof_mpi_onesided_info_t Sel.any
                Sel.any ta.onesided_comm] }) := by
  have hop2 : (mpi_onesided_info_t.ofImage (List.take 24 (w.oracle w.tick).data)).op
      = MPI_ONESIDED_END := hop
  simp [na_mpi_onesided_service_iteration, hsa, MPI_Recv, World.reply, World.step, hret,
    sizeof_mpi_onesided_info_t, hop2]

/-- A pass that receives a record with an unsupported operation for a base that is a key of the
handle map: the error is logged, the mutex released, and the loop goes on. -/
theorem na_mpi_onesided_service_iteration_unsupported (sa : Nat) (w : World) (ta : mpi_addr_t)
    (hp : Nat) (hsa : w.addrs sa = some ta) (hret : (w.oracle w.tick).ret = MPI_SUCCESS)
    (hend : (mpi_onesided_info_t.ofImage
      ((w.oracle w.tick).data.take sizeof_mpi_onesided_info_t)).op ≠ MPI_ONESIDED_END)
    (hput : (mpi_onesided_info_t.ofImage
      ((w.oracle w.tick).data.take sizeof_mpi_onesided_info_t)).op ≠ MPI_ONESIDED_PUT)
    (hget : (mpi_onesided_info_t.ofImage
      ((w.oracle w.tick).data.take sizeof_mpi_onesided_info_t)).op ≠ MPI_ONESIDED_GET)
    (hmap : w.mem_handle_map.lookup (mpi_onesided_info_t.ofImage
      ((w.oracle w.tick).data.take sizeof_mpi_onesided_info_t)).base = some hp)
    (hnn : hp ≠ NULL) :
    na_mpi_onesided_service_iteration sa w
      = some (false,
          { w with
            mem_map_mutex := false
            tick := w.tick + 1
            trace := w.trace ++ [Event.MPI_Recv RecvTarget.var sizeof_mpi_onesided_info_t Sel.any
                Sel.any ta.onesided_comm,
              Event.hg_thread_mutex_lock,
              Event.hg_hash_table_lookup (mpi_onesided_info_t.ofImage
                ((w.oracle w.tick).data.take sizeof_mpi_onesided_info_t)).base,
              Event.NA_ERROR "Operation not supported",
              Event.hg_thread_mutex_unlock] }) := by
  have hend2 : ¬ (mpi_onesided_info_t.ofImage (List.take 24 (w.oracle w.tick).data)).op
      = MPI_ONESIDED_END := hend
  have hput2 : ¬ (mpi_onesided_info_t.ofImage (List.take 24 (w.oracle w.tick).data)).op
      = MPI_ONESIDED_PUT := hput
  have hget2 : ¬ (mpi_onesided_info_t.ofImage (List.take 24 (w.oracle w.tick).data)).op
      = MPI_ONESIDED_GET := hget
  have hmap2 : List.lookup (mpi_onesided_info_t.ofImage (List.take 24 (w.oracle w.tick).data)).base
      w.mem_handle_map = some hp := hmap
  simp [na_mpi_onesided_service_iteration, hsa, MPI_Recv, World.reply, World.step, hret,
    sizeof_mpi_onesided_info_t, hend2, hput2, hget2, hg_thread_mutex_lock, hg_hash_table_lookup,
    World.log, hmap2, hnn, NA_ERROR_DEFAULT, hg_thread_mutex_unlock]

/-- C21, the code at a failing input: the service of a process that has registered nothing,
with records of an unsupported operation (7) arriving one after the other. The record is not an
end request, so the pass takes the mutex and looks its base up before the operation is
examined; the base is not a key of the map, and the pass leaves the loop by `break`. The
service, allowed five passes, returns after the first: it has released the mutex but is not
back waiting for the next control record. -/
theorem C21_service_ends_on_unsupported_op :
    sample_unsupported_record.op ≠ MPI_ONESIDED_PUT ∧
    sample_unsupported_record.op ≠ MPI_ONESIDED_GET ∧
    sample_unsupported_record.op ≠ MPI_ONESIDED_END ∧
    ∃ w1, na_mpi_onesided_service 5 3 sample_service_unsupported = some (true, w1) ∧
      w1.trace = [Event.MPI_Recv RecvTarget.var 24 Sel.any Sel.any 11,
        Event.hg_thread_mutex_lock, Event.hg_hash_table_lookup 4096,
        Event.NA_ERROR "Could not find memory handle, registered?",
        Event.hg_thread_mutex_unlock] ∧
      w1.tick = 1 ∧ w1.mem_map_mutex = false :=
  ⟨by decide, by decide, by decide, _, rfl, rfl, rfl, rfl⟩

/-! ## Finalize -/

/-- The loop of `na_mpi_finalize`: one `MPI_Send` of the record per rank of the list, in order,
on the side channel of the server address; nothing else changes. -/
theorem na_mpi_finalize_sends (img : List Nat) (l : List Nat) (w : World) :
    l.foldl (fun (w : World) (i : Nat) => (MPI_Send img sizeof_mpi_onesided_info_t (i : Int)
        NA_MPI_ONESIDED_TAG w.server_remote_addr.onesided_comm w).2) w
      = { w with
          trace := w.trace ++ l.map (fun (i : Nat) => Event.MPI_Send img
            sizeof_mpi_onesided_info_t (i : Int) NA_MPI_ONESIDED_TAG
            w.server_remote_addr.onesided_comm)
          tick := w.tick + l.length } := by
  induction l generalizing w with
  | nil => simp
  | cons i l ih =>
    rw [List.foldl_cons, ih]
    simp [MPI_Send, World.step, List.append_assoc, Nat.add_assoc, Nat.add_comm 1]

/-- C22: in server role, when the side channel has `n` remote peers, `na_mpi_finalize` makes
exactly `n` calls of `MPI_Send`, to the ranks `0 .. n-1` in order, each with the 24-byte image
of `{base = NULL, disp = 0, count = 0, op = MPI_ONESIDED_END}` (operation 2 on the wire), tag
`NA_MPI_ONESIDED_TAG` and the side-channel communicator of the server address, all of them
before `MPI_Comm_free` of that communicator and `MPI_Comm_disconnect` of the primary one; in
client role it makes no call of `MPI_Send`. -/
theorem C22_finalize_end_records (w : World) (n : Nat) :
    ({ base := NULL, disp := 0, count := 0, op := MPI_ONESIDED_END } : mpi_onesided_info_t).image
      = [0, 0, 0, 0, 0, 0, 0, 0, 0, 0, 0, 0, 0, 0, 0, 0, 0, 0, 0, 0, 2, 0, 0, 0] ∧
    (w.is_server = true → (w.oracle w.tick).flag = (n : Int) →
      (na_mpi_finalize w).2.trace = w.trace ++
        ([Event.MPI_Comm_remote_size w.server_remote_addr.onesided_comm] ++
          (List.range n).map (fun (i : Nat) => Event.MPI_Send
            ({ base := NULL, disp := 0, count := 0, op := MPI_ONESIDED_END } :
              mpi_onesided_info_t).image
            sizeof_mpi_onesided_info_t (i : Int) NA_MPI_ONESIDED_TAG
            w.server_remote_addr.onesided_comm) ++
          [Event.MPI_Comm_free w.server_remote_addr.onesided_comm,
            Event.MPI_Comm_disconnect w.server_remote_addr.comm, Event.MPI_Close_port,
            Event.hg_hash_table_free, Event.MPI_Comm_free w.mpi_intra_comm,
            Event.MPI_Finalized] ++
          (if (w.oracle (w.tick + 1 + n)).flag ≠ 0 then
            [Event.NA_ERROR "MPI already finalized"] else []) ++
          (if w.mpi_ext_initialized = 0 ∧ (w.oracle (w.tick + 1 + n)).flag = 0 then
            [Event.MPI_Finalize] else []))) ∧
    (w.is_server = false →
      (na_mpi_finalize w).2.trace = w.trace ++
        ([Event.hg_hash_table_free, Event.MPI_Comm_free w.mpi_intra_comm, Event.MPI_Finalized] ++
          (if (w.oracle w.tick).flag ≠ 0 then [Event.NA_ERROR "MPI already finalized"] else []) ++
          (if w.mpi_ext_initialized = 0 ∧ (w.oracle w.tick).flag = 0 then
            [Event.MPI_Finalize] else []))) := by
  refine ⟨by decide, ?_, ?_⟩
  · intro hs hn
    simp only [na_mpi_finalize, hs, if_true, MPI_Comm_remote_size, World.reply, hn,
      Int.toNat_ofNat, na_mpi_finalize_sends, World.step, World.log, MPI_Finalized,
      List.length_range, NA_ERROR_DEFAULT]
    by_cases h1 : (w.oracle (w.tick + 1 + n)).flag = 0 <;>
      by_cases h2 : w.mpi_ext_initialized = 0 <;>
      simp [h1, h2]
  · intro hs
    simp only [na_mpi_finalize, hs, World.reply, World.step, World.log, MPI_Finalized,
      NA_ERROR_DEFAULT]
    by_cases h1 : (w.oracle w.tick).flag = 0 <;>
      by_cases h2 : w.mpi_ext_initialized = 0 <;>
      simp [h1, h2]

/-- C22 at sample states: a server with two peers, and a client. -/
theorem C22_finalize_end_records_witness :
    sample_server_two_peers.is_server = true ∧
    (sample_server_two_peers.oracle sample_server_two_peers.tick).flag = ((2 : Nat) : Int) ∧
    sample_client_finalizing.is_server = false ∧
    (na_mpi_finalize sample_server_two_peers).2.trace
      = [Event.MPI_Comm_remote_size 21,
          Event.MPI_Send [0, 0, 0, 0, 0, 0, 0, 0, 0, 0, 0, 0, 0, 0, 0, 0, 0, 0, 0, 0, 2, 0, 0, 0]
            24 0 128 21,
          Event.MPI_Send [0, 0, 0, 0, 0, 0, 0, 0, 0, 0, 0, 0, 0, 0, 0, 0, 0, 0, 0, 0, 2, 0, 0, 0]
            24 1 128 21,
          Event.MPI_Comm_free 21, Event.MPI_Comm_disconnect 20, Event.MPI_Close_port,
          Event.hg_hash_table_free, Event.MPI_Comm_free 5, Event.MPI_Finalized,
          Event.MPI_Finalize] ∧
    (na_mpi_finalize sample_client_finalizing).2.trace
      = [Event.hg_hash_table_free, Event.MPI_Comm_free 5, Event.MPI_Finalized,
          Event.MPI_Finalize] :=
  ⟨rfl, rfl, rfl, (C22_finalize_end_records sample_server_two_peers 2).2.1 rfl rfl,
    (C22_finalize_end_records sample_client_finalizing 0).2.2 rfl⟩

/-! ## The length of a put or get -/

theorem toInt_eq_iff (L : Nat) : toInt (L : Int) = (L : Int) ↔ L ≤ 2 ^ 31 - 1 := by
  unfold toInt wrapSigned
  norm_num
  constructor
  · intro h
    split_ifs at h <;> omega
  · intro h
    split_ifs <;> omega

theorem toInt_eq_mod (L : Nat) :
    toInt (L : Int) = if L % 2 ^ 32 < 2 ^ 31 then ((L % 2 ^ 32 : Nat) : Int)
      else ((L % 2 ^ 32 : Nat) : Int) - 2 ^ 32 := by
  unfold toInt wrapSigned
  norm_num
  split_ifs <;> omega

/-- C23: `na_mpi_put` and `na_mpi_get` have no check of the length. For every length `L`, with
valid handles and address (a read-write remote handle for put) and the non-blocking calls
accepted by the library, both succeed, and the count in the control record and the count of the
payload transfer (`MPI_Isend` for put, `MPI_Irecv` for get) are `(int) L`: `L mod 2^32` read as a
two's complement 32-bit integer. That count equals `L` exactly when `L <= 2^31 - 1`. -/
theorem C23_length_truncated (NA_MEM_READWRITE lhp : Nat) (l : Int) (rhp : Nat) (d : Int)
    (L ra request : Nat) (w : World) (lh rh : mpi_mem_handle_t) (a : mpi_addr_t)
    (hlh : w.handles lhp = some lh) (hrh : w.handles rhp = some rh)
    (hattr : rh.attr = NA_MEM_READWRITE) (hra : w.addrs ra = some a)
    (h1 : (w.oracle (w.tick + 1)).ret = MPI_SUCCESS)
    (h2 : (w.oracle (w.tick + 2)).ret = MPI_SUCCESS) :
    (∃ p w1, na_mpi_put NA_MEM_READWRITE lhp l rhp d L ra request w
        = some ((NA_SUCCESS, p), w1) ∧
      w1.trace = w.trace ++ [Event.malloc p,
        Event.MPI_Send
          ({ base := rh.base, disp := toAint d, count := toInt L, op := MPI_ONESIDED_PUT } :
            mpi_onesided_info_t).image
          sizeof_mpi_onesided_info_t a.rank NA_MPI_ONESIDED_TAG a.onesided_comm,
        Event.MPI_Isend (readBytes w.mem (ptr_add lh.base (toAint l)) (toInt L).toNat)
          (toInt L) a.rank NA_MPI_ONESIDED_TAG a.onesided_comm,
        Event.MPI_Irecv (RecvTarget.ack p) 1 a.rank NA_MPI_ONESIDED_ACK_TAG a.onesided_comm]) ∧
    (∃ p w1, na_mpi_get lhp l rhp d L ra request w = some ((NA_SUCCESS, p), w1) ∧
      w1.trace = w.trace ++ [Event.malloc p,
        Event.MPI_Send
          ({ base := rh.base, disp := toAint d, count := toInt L, op := MPI_ONESIDED_GET } :
            mpi_onesided_info_t).image
          sizeof_mpi_onesided_info_t a.rank NA_MPI_ONESIDED_TAG a.onesided_comm,
        Event.MPI_Irecv (RecvTarget.mem (ptr_add lh.base (toAint l))) (toInt L) a.rank
          NA_MPI_ONESIDED_TAG a.onesided_comm]) ∧
    (toInt (L : Int) = if L % 2 ^ 32 < 2 ^ 31 then ((L % 2 ^ 32 : Nat) : Int)
      else ((L % 2 ^ 32 : Nat) : Int) - 2 ^ 32) ∧
    (toInt (L : Int) = (L : Int) ↔ L ≤ 2 ^ 31 - 1) :=
  ⟨⟨_, _, na_mpi_put_posted NA_MEM_READWRITE lhp l rhp d L ra request w lh rh a hlh hrh hattr hra
      h1 h2, rfl⟩,
    ⟨_, _, na_mpi_get_posted lhp l rhp d L ra request w lh rh a hlh hrh hra h1, rfl⟩,
    toInt_eq_mod L, toInt_eq_iff L⟩

/-- C23 at the sample state: a put and a get of `2^31 + 5` bytes; the count is `-2^31 + 5`. -/
theorem C23_length_truncated_witness :
    sample_world.handles 2 = some { base := 8192, size := 1024, attr := 1 } ∧
    sample_world.handles 1 = some { base := 4096, size := 1024, attr := 0 } ∧
    toInt ((2147483653 : Nat) : Int) = -2147483643 ∧
    ((∃ p w1, na_mpi_put 0 2 8 1 16 2147483653 3 0 sample_world
        = some ((NA_SUCCESS, p), w1) ∧
      w1.trace = sample_world.trace ++ [Event.malloc p,
        Event.MPI_Send
          ({ base := 4096, disp := toAint 16, count := toInt (2147483653 : Nat),
             op := MPI_ONESIDED_PUT } : mpi_onesided_info_t).image
          sizeof_mpi_onesided_info_t 0 NA_MPI_ONESIDED_TAG 11,
        Event.MPI_Isend
          (readBytes sample_world.mem (ptr_add 8192 (toAint 8)) (toInt (2147483653 : Nat)).toNat)
          (toInt (2147483653 : Nat)) 0 NA_MPI_ONESIDED_TAG 11,
        Event.MPI_Irecv (RecvTarget.ack p) 1 0 NA_MPI_ONESIDED_ACK_TAG 11]) ∧
    (∃ p w1, na_mpi_get 2 8 1 16 2147483653 3 0 sample_world = some ((NA_SUCCESS, p), w1) ∧
      w1.trace = sample_world.trace ++ [Event.malloc p,
        Event.MPI_Send
          ({ base := 4096, disp := toAint 16, count := toInt (2147483653 : Nat),
             op := MPI_ONESIDED_GET } : mpi_onesided_info_t).image
          sizeof_mpi_onesided_info_t 0 NA_MPI_ONESIDED_TAG 11,
        Event.MPI_Irecv (RecvTarget.mem (ptr_add 8192 (toAint 8))) (toInt (2147483653 : Nat)) 0
          NA_MPI_ONESIDED_TAG 11]) ∧
    (toInt ((2147483653 : Nat) : Int)
      = if 2147483653 % 2 ^ 32 < 2 ^ 31 then ((2147483653 % 2 ^ 32 : Nat) : Int)
        else ((2147483653 % 2 ^ 32 : Nat) : Int) - 2 ^ 32) ∧
    (toInt ((2147483653 : Nat) : Int) = ((2147483653 : Nat) : Int) ↔ 2147483653 ≤ 2 ^ 31 - 1)) :=
  ⟨rfl, rfl, by decide,
    C23_length_truncated 0 2 8 1 16 2147483653 3 0 sample_world
      { base := 8192, size := 1024, attr := 1 } { base := 4096, size := 1024, attr := 0 }
      { comm := 10, rank := 0, is_reference := false, onesided_comm := 11 } rfl rfl rfl rfl rfl
      rfl⟩

end NaMpi
